import Mathlib

/-!
Layer stack construction and composition cache of the HWC display adapter.

A shallow embedding of `displayengine/libs/hwc/hwc_display.cpp` and
`displayengine/libs/hwc/hwc_display_external.cpp`.

Conventions of the embedding.

* Pointers are natural numbers, `0` being `NULL`.  An object reached through a
  pointer is stored next to the pointer (`handle` / `pvt_handle`,
  `rect` / `rects`).
* Counts and sizes are exact natural numbers; they are assumed to fit in the
  machine types that hold them.
* `float` fields hold the integer they were converted from.
* Reading an array past its end is undefined in the source; the accessors
  below return a default-constructed object there.
* Calls that leave the adapter (the composition engine, `close`) are recorded
  in an event trace.
-/

namespace sde

/-! ## Constants of the platform headers -/

/-- Value of `EINVAL` in `errno.h`. -/
def EINVAL : Int := 22
/-- Value of `ENOMEM` in `errno.h`. -/
def ENOMEM : Int := 12

/-- Composition type `HWC_FRAMEBUFFER` of `hwcomposer_defs.h`. -/
def HWC_FRAMEBUFFER : Int := 0
/-- Composition type `HWC_OVERLAY` of `hwcomposer_defs.h`. -/
def HWC_OVERLAY : Int := 1
/-- Composition type `HWC_FRAMEBUFFER_TARGET` of `hwcomposer_defs.h`. -/
def HWC_FRAMEBUFFER_TARGET : Int := 3

/-- Layer flag bit `HWC_SKIP_LAYER`. -/
def HWC_SKIP_LAYER : Nat := 1
/-- Frame flag bit `HWC_GEOMETRY_CHANGED`. -/
def HWC_GEOMETRY_CHANGED : Nat := 1

/-- Transform bit `HWC_TRANSFORM_FLIP_H`. -/
def HWC_TRANSFORM_FLIP_H : Nat := 1
/-- Transform bit `HWC_TRANSFORM_FLIP_V`. -/
def HWC_TRANSFORM_FLIP_V : Nat := 2
/-- Transform bit `HWC_TRANSFORM_ROT_90`. -/
def HWC_TRANSFORM_ROT_90 : Nat := 4

/-- Blending hint `HWC_BLENDING_PREMULT`. -/
def HWC_BLENDING_PREMULT : Int := 0x0105
/-- Blending hint `HWC_BLENDING_COVERAGE`. -/
def HWC_BLENDING_COVERAGE : Int := 0x0405

/-- Pixel format `HAL_PIXEL_FORMAT_RGBA_8888`. -/
def HAL_PIXEL_FORMAT_RGBA_8888 : Int := 1
/-- Pixel format `HAL_PIXEL_FORMAT_RGBX_8888`. -/
def HAL_PIXEL_FORMAT_RGBX_8888 : Int := 2
/-- Pixel format `HAL_PIXEL_FORMAT_RGB_888`. -/
def HAL_PIXEL_FORMAT_RGB_888 : Int := 3
/-- Pixel format `HAL_PIXEL_FORMAT_RGB_565`. -/
def HAL_PIXEL_FORMAT_RGB_565 : Int := 4
/-- Pixel format `HAL_PIXEL_FORMAT_BGRA_8888`. -/
def HAL_PIXEL_FORMAT_BGRA_8888 : Int := 5
/-- Pixel format `HAL_PIXEL_FORMAT_BGRX_8888` of `gralloc_priv.h`. -/
def HAL_PIXEL_FORMAT_BGRX_8888 : Int := 0x112
/-- Pixel format `HAL_PIXEL_FORMAT_YCbCr_420_SP_VENUS` of `gralloc_priv.h`. -/
def HAL_PIXEL_FORMAT_YCbCr_420_SP_VENUS : Int := 0x7FA30C04

/-- Buffer type `BUFFER_TYPE_VIDEO` of `gralloc_priv.h`. -/
def BUFFER_TYPE_VIDEO : Int := 1
/-- Flag bit `private_handle_t::PRIV_FLAGS_SECURE_BUFFER`. -/
def PRIV_FLAGS_SECURE_BUFFER : Nat := 0x0400

/-- Engine status: `kErrorNone` is `0`, every other value is an error. -/
abbrev DisplayError := Nat
/-- The success status of the engine. -/
def kErrorNone : DisplayError := 0

/-! ## The external (display server) layer list -/

/-- Integer rectangle `hwc_rect_t`. -/
structure hwc_rect_t where
  left : Int
  top : Int
  right : Int
  bottom : Int
  deriving DecidableEq, Repr

/-- Float rectangle `hwc_frect_t`. -/
structure hwc_frect_t where
  left : Int
  top : Int
  right : Int
  bottom : Int
  deriving DecidableEq, Repr

/-- The fields of `private_handle_t` that the adapter reads. -/
structure private_handle_t where
  fd : Int
  offset : Nat
  flags : Nat
  format : Int
  width : Nat
  height : Nat
  bufferType : Int
  deriving DecidableEq, Repr

/-- One entry `hwc_layer_1_t` of the external list.  `handle` is the buffer
handle pointer (`0` is `NULL`), `pvt_handle` the object it points to;
`visibleRegionScreen` is the rectangle array, `numRects` being its length. -/
structure hwc_layer_1_t where
  compositionType : Int
  flags : Nat
  handle : Nat
  pvt_handle : private_handle_t
  transform : Nat
  blending : Int
  sourceCropf : hwc_frect_t
  displayFrame : hwc_rect_t
  visibleRegionScreen : List hwc_rect_t
  dirtyRect : hwc_rect_t
  acquireFenceFd : Int
  releaseFenceFd : Int
  planeAlpha : Nat
  deriving DecidableEq, Repr

/-- The frame `hwc_display_contents_1_t`; `numHwLayers` is the length of
`hwLayers`. -/
structure hwc_display_contents_1_t where
  retireFenceFd : Int
  flags : Nat
  hwLayers : List hwc_layer_1_t
  deriving DecidableEq, Repr

/-- The field `numHwLayers`. -/
def hwc_display_contents_1_t.numHwLayers (c : hwc_display_contents_1_t) : Nat :=
  c.hwLayers.length

/-- A default external layer, read where the source reads past the list. -/
def hwc_layer_1_t.zero : hwc_layer_1_t :=
  { compositionType := 0, flags := 0, handle := 0,
    pvt_handle := { fd := 0, offset := 0, flags := 0, format := 0, width := 0,
                    height := 0, bufferType := 0 },
    transform := 0, blending := 0,
    sourceCropf := { left := 0, top := 0, right := 0, bottom := 0 },
    displayFrame := { left := 0, top := 0, right := 0, bottom := 0 },
    visibleRegionScreen := [],
    dirtyRect := { left := 0, top := 0, right := 0, bottom := 0 },
    acquireFenceFd := 0, releaseFenceFd := 0, planeAlpha := 0 }

/-- The entry `content_list->hwLayers[i]`. -/
def hwc_display_contents_1_t.hwLayer (c : hwc_display_contents_1_t) (i : Nat) :
    hwc_layer_1_t :=
  c.hwLayers.getD i hwc_layer_1_t.zero

/-! ## The internal layer stack -/

/-- Composition decision of a layer. -/
inductive LayerComposition where
  | kCompositionGPU
  | kCompositionSDE
  | kCompositionGPUTarget
  deriving DecidableEq, Repr

/-- Blending mode of a layer. -/
inductive LayerBlending where
  | kBlendingNone
  | kBlendingPremultiplied
  | kBlendingCoverage
  deriving DecidableEq, Repr

/-- The pixel formats that `SetFormat` produces. -/
inductive LayerBufferFormat where
  | kFormatRGBA8888
  | kFormatBGRA8888
  | kFormatRGBX8888
  | kFormatBGRX8888
  | kFormatRGB888
  | kFormatRGB565
  | kFormatYCbCr420SemiPlanarVenus
  deriving DecidableEq, Repr

open LayerComposition LayerBlending LayerBufferFormat

/-- Rectangle `LayerRect` with float coordinates. -/
structure LayerRect where
  left : Int
  top : Int
  right : Int
  bottom : Int
  deriving DecidableEq, Repr

/-- Plane descriptor `LayerBufferPlane`. -/
structure LayerBufferPlane where
  fd : Int
  offset : Nat
  stride : Nat
  deriving DecidableEq, Repr

/-- Buffer descriptor `LayerBuffer`; `planes0` is `planes[0]`, the only plane
the adapter touches. -/
structure LayerBuffer where
  width : Nat
  height : Nat
  format : LayerBufferFormat
  planes0 : LayerBufferPlane
  acquire_fence_fd : Int
  release_fence_fd : Int
  deriving DecidableEq, Repr

/-- Transform `LayerTransform`; `rotation` is in degrees. -/
structure LayerTransform where
  rotation : Int
  flip_horizontal : Bool
  flip_vertical : Bool
  deriving DecidableEq, Repr

/-- Per-layer flags `LayerFlags`. -/
structure LayerFlags where
  skip : Bool
  updating : Bool
  deriving DecidableEq, Repr

/-- Rectangle array `LayerRectArray`: `rect` is the address of the first
rectangle, `count` the number of rectangles, `rects` the rectangles stored
from that address on. -/
structure LayerRectArray where
  rect : Nat
  count : Nat
  rects : List LayerRect
  deriving DecidableEq, Repr

/-- One `Layer`.  `input_buffer_addr` is the pointer `input_buffer`,
`input_buffer` the descriptor it points to. -/
structure Layer where
  input_buffer_addr : Nat
  input_buffer : LayerBuffer
  composition : LayerComposition
  src_rect : LayerRect
  dst_rect : LayerRect
  visible_regions : LayerRectArray
  dirty_regions : LayerRectArray
  blending : LayerBlending
  transform : LayerTransform
  plane_alpha : Nat
  flags : LayerFlags
  deriving DecidableEq, Repr

/-- Frame-level flags `LayerStackFlags`. -/
structure LayerStackFlags where
  geometry_changed : Bool
  skip_present : Bool
  video_present : Bool
  secure_present : Bool
  deriving DecidableEq, Repr

/-- The `LayerStack`: `layers_addr` is the pointer `layers`, `layers` the
array it points to. -/
structure LayerStack where
  layers_addr : Nat
  layers : List Layer
  layer_count : Nat
  retire_fence_fd : Int
  flags : LayerStackFlags
  deriving DecidableEq, Repr

/-- Modelled from the spec: the default-constructed `LayerRect` (constructor in
`core/layer_stack.h`), all coordinates zero. -/
def LayerRect.init : LayerRect := { left := 0, top := 0, right := 0, bottom := 0 }

/-- Modelled from the spec: the default-constructed `LayerBuffer` (constructor
in `core/layer_buffer.h`): zero dimensions, no fences. -/
def LayerBuffer.init : LayerBuffer :=
  { width := 0, height := 0, format := kFormatRGBA8888,
    planes0 := { fd := -1, offset := 0, stride := 0 },
    acquire_fence_fd := -1, release_fence_fd := -1 }

/-- Modelled from the spec: the default-constructed `LayerRectArray`. -/
def LayerRectArray.init : LayerRectArray := { rect := 0, count := 0, rects := [] }

/-- Modelled from the spec: the default-constructed `Layer` (constructor in
`core/layer_stack.h`): null buffer pointer, GPU composition, no flags. -/
def Layer.init : Layer :=
  { input_buffer_addr := 0, input_buffer := LayerBuffer.init,
    composition := kCompositionGPU,
    src_rect := LayerRect.init, dst_rect := LayerRect.init,
    visible_regions := LayerRectArray.init, dirty_regions := LayerRectArray.init,
    blending := kBlendingNone,
    transform := { rotation := 0, flip_horizontal := false, flip_vertical := false },
    plane_alpha := 0,
    flags := { skip := false, updating := false } }

/-- Modelled from the spec: the default-constructed `LayerStack`: no layers,
all flags clear. -/
def LayerStack.init : LayerStack :=
  { layers_addr := 0, layers := [], layer_count := 0, retire_fence_fd := -1,
    flags := { geometry_changed := false, skip_present := false,
               video_present := false, secure_present := false } }

/-- The entry `layer_stack_.layers[i]`. -/
def LayerStack.layer (s : LayerStack) (i : Nat) : Layer :=
  s.layers.getD i Layer.init

/-- Assignment to the entry `layer_stack_.layers[i]`. -/
def LayerStack.setLayer (s : LayerStack) (i : Nat) (l : Layer) : LayerStack :=
  { s with layers := s.layers.set i l }

/-! ## The state of a display -/

/-- The arena `LayerStackMemory`: `raw` is the address of the byte array
(`0` when there is none), `size` its capacity in bytes. -/
structure LayerStackMemory where
  raw : Nat
  size : Nat
  deriving DecidableEq, Repr

/-- One slot `LayerCache` of the composition cache. -/
structure LayerCache where
  handle : Nat
  composition : LayerComposition
  deriving DecidableEq, Repr

/-- The composition cache `LayerStackCache`.  `kMaxLayerCount` is the number of
slots of the array `layer_cache`, the constant `HWCDisplay::kMaxLayerCount` of
`hwc_display.h`.  The source indexes the array without comparing the index with
that number: `layer_cache i` is what a read of `layer_cache[i]` yields, which
for `i` at or past `kMaxLayerCount` is the memory behind the array.  `overrun`
is set once a store has gone past the end of the array; from then on the other
fields no longer describe the memory of the program. -/
structure LayerStackCache where
  layer_cache : Nat → LayerCache
  layer_count : Nat
  kMaxLayerCount : Nat
  overrun : Bool

/-- The members of `HWCDisplay` that the layer stack methods use. -/
structure HWCDisplay where
  layer_stack_memory_ : LayerStackMemory
  layer_stack_ : LayerStack
  layer_stack_cache_ : LayerStackCache

/-- The constants of the build that are fixed outside the two source files:
the sizes of the three arena objects and the allocation step
`LayerStackMemory::kSizeSteps`. -/
structure Env where
  sizeof_Layer : Nat
  sizeof_LayerBuffer : Nat
  sizeof_LayerRect : Nat
  kSizeSteps : Nat
  deriving DecidableEq, Repr

/-- The composition engine behind `display_intf_`: each pass receives the layer
stack, may rewrite it, and returns a status. -/
structure DisplayInterface where
  Prepare : LayerStack → DisplayError × LayerStack
  Commit : LayerStack → DisplayError × LayerStack

/-- A call that leaves the adapter. -/
inductive Event where
  | enginePrepare
  | engineCommit
  | close (fd : Int)
  deriving DecidableEq, Repr

/-- What a method leaves behind: its return value, the display, the external
list it may have written to, and the calls it made. -/
structure Outcome where
  status : Int
  display : HWCDisplay
  content_list : hwc_display_contents_1_t
  events : List Event

/-- A display as its constructor leaves it: no arena, empty stack, empty
cache of 32 slots (the value of `kMaxLayerCount` in `hwc_display.h`). -/
def HWCDisplay.init : HWCDisplay :=
  { layer_stack_memory_ := { raw := 0, size := 0 },
    layer_stack_ := LayerStack.init,
    layer_stack_cache_ :=
      { layer_cache := fun _ => { handle := 0, composition := kCompositionGPU },
        layer_count := 0,
        kMaxLayerCount := 32,
        overrun := false } }

/-- Modelled from the spec: the macro `ROUND_UP` of `utils/constants.h`, which
rounds `value` up to the next multiple of `step`. -/
def ROUND_UP (value step : Nat) : Nat :=
  ((value + (step - 1)) / step) * step

/-! ## `HWCDisplay::AllocateLayerStack` -/

/-- The sizing loop: for each layer, its visible rectangles and one dirty
rectangle are added to `required_size`. -/
def AllocateLayerStack.required (env : Env) : List hwc_layer_1_t → Nat → Nat
  | [], required_size => required_size
  | hwc_layer :: rest, required_size =>
      let num_rects := hwc_layer.visibleRegionScreen.length + 1
      AllocateLayerStack.required env rest (required_size + num_rects * env.sizeof_LayerRect)

/-- The exact byte requirement of a frame, `required_size` before rounding. -/
def AllocateLayerStack.required_size (env : Env) (content_list : hwc_display_contents_1_t) :
    Nat :=
  AllocateLayerStack.required env content_list.hwLayers
    (content_list.numHwLayers * (env.sizeof_Layer + env.sizeof_LayerBuffer))

/-- The inner loop over the visible rectangles: it runs `count` times and every
pass assigns `LayerRect()` through the pointer `layer.visible_regions.rect`,
that is to the first rectangle. -/
def AllocateLayerStack.resetVisible : Nat → List LayerRect → List LayerRect
  | 0, rects => rects
  | count + 1, rects => AllocateLayerStack.resetVisible count (rects.set 0 LayerRect.init)

/-- The carving loop.  `stale a` is the rectangle that the backing storage
holds at address `a` before the call writes to it; the visible rectangles of a
layer start out with those contents. -/
def AllocateLayerStack.carve (env : Env) (stale : Nat → LayerRect) :
    List hwc_layer_1_t → Nat → List Layer
  | [], _ => []
  | hwc_layer :: rest, current_address =>
      let numRects := hwc_layer.visibleRegionScreen.length
      let input_buffer_addr := current_address
      let current_address := current_address + env.sizeof_LayerBuffer
      let visible_addr := current_address
      let visible := AllocateLayerStack.resetVisible numRects
        ((List.range numRects).map fun j => stale (visible_addr + j * env.sizeof_LayerRect))
      let current_address := current_address + numRects * env.sizeof_LayerRect
      let dirty_addr := current_address
      let current_address := current_address + env.sizeof_LayerRect
      { Layer.init with
        input_buffer_addr := input_buffer_addr
        input_buffer := LayerBuffer.init
        visible_regions := { rect := visible_addr, count := numRects, rects := visible }
        dirty_regions := { rect := dirty_addr, count := 1, rects := [LayerRect.init] } }
        :: AllocateLayerStack.carve env stale rest current_address

/-- The second half of `AllocateLayerStack` ("Assign memory addresses now"):
the stack is reset and every layer carved out of the arena. -/
def AllocateLayerStack.assign (env : Env) (stale : Nat → LayerRect) (d : HWCDisplay)
    (content_list : hwc_display_contents_1_t) : HWCDisplay :=
  let num_hw_layers := content_list.numHwLayers
  let current_address := d.layer_stack_memory_.raw
  { d with
    layer_stack_ :=
      { LayerStack.init with
        layers_addr := current_address
        layer_count := num_hw_layers
        layers := AllocateLayerStack.carve env stale content_list.hwLayers
          (current_address + num_hw_layers * env.sizeof_Layer) } }

/-- The method `HWCDisplay::AllocateLayerStack`.  `new_array n` is the pointer
that the expression `new uint8_t[n]` evaluates to, `stale` the contents of the
backing storage the layers are carved from.  The source uses the throwing form
of `new`: when storage runs out it raises `std::bad_alloc` (or aborts) and the
call does not return, so in an execution that reaches the test `!raw` the
pointer is not null.  The branch for a null pointer is translated as the source
writes it; on it the old array has been deleted while `layer_stack_` still
points into it. -/
def AllocateLayerStack (env : Env) (new_array : Nat → Nat) (stale : Nat → LayerRect)
    (d : HWCDisplay) (content_list : hwc_display_contents_1_t) : Int × HWCDisplay :=
  let required_size := AllocateLayerStack.required_size env content_list
  if d.layer_stack_memory_.size < required_size then
    let size := if d.layer_stack_memory_.raw ≠ 0 then 0 else d.layer_stack_memory_.size
    let required_size := ROUND_UP required_size env.kSizeSteps
    let raw := new_array required_size
    if raw = 0 then
      (-ENOMEM, { d with layer_stack_memory_ := { raw := raw, size := size } })
    else
      (0, AllocateLayerStack.assign env stale
            { d with layer_stack_memory_ := { raw := raw, size := required_size } }
            content_list)
  else
    (0, AllocateLayerStack.assign env stale d content_list)

/-! ## The field translators -/

/-- The overload `SetRect(const hwc_rect_t &, LayerRect *)`.  The target keeps
the integer coordinate; the conversion `FLOAT()` of the source is exact only for
coordinates below `2 ^ 24` in absolute value. -/
def SetRect (source : hwc_rect_t) : LayerRect :=
  { left := source.left, top := source.top, right := source.right, bottom := source.bottom }

/-- The overload `SetRect(const hwc_frect_t &, LayerRect *)`, a field by field
copy.  Coordinates are integers here, so a fractional source crop has no
counterpart. -/
def SetRectF (source : hwc_frect_t) : LayerRect :=
  { left := source.left, top := source.top, right := source.right, bottom := source.bottom }

/-- The overload `SetComposition(const int32_t &, LayerComposition *)`. -/
def SetComposition (source : Int) : LayerComposition :=
  if source = HWC_FRAMEBUFFER_TARGET then kCompositionGPUTarget else kCompositionSDE

/-- The overload `SetComposition(const int32_t &, int32_t *)`, called with a
`LayerComposition` as source. -/
def SetCompositionHWC (source : LayerComposition) : Int :=
  match source with
  | kCompositionGPUTarget => HWC_FRAMEBUFFER_TARGET
  | kCompositionSDE => HWC_OVERLAY
  | _ => HWC_FRAMEBUFFER

/-- The method `SetBlending`. -/
def SetBlending (source : Int) : LayerBlending :=
  if source = HWC_BLENDING_PREMULT then kBlendingPremultiplied
  else if source = HWC_BLENDING_COVERAGE then kBlendingCoverage
  else kBlendingNone

/-- The method `SetFormat`: the status and the value of `*target` afterwards. -/
def SetFormat (source : Int) (target : LayerBufferFormat) : Int × LayerBufferFormat :=
  if source = HAL_PIXEL_FORMAT_RGBA_8888 then (0, kFormatRGBA8888)
  else if source = HAL_PIXEL_FORMAT_BGRA_8888 then (0, kFormatBGRA8888)
  else if source = HAL_PIXEL_FORMAT_RGBX_8888 then (0, kFormatRGBX8888)
  else if source = HAL_PIXEL_FORMAT_BGRX_8888 then (0, kFormatBGRX8888)
  else if source = HAL_PIXEL_FORMAT_RGB_888 then (0, kFormatRGB888)
  else if source = HAL_PIXEL_FORMAT_RGB_565 then (0, kFormatRGB565)
  else if source = HAL_PIXEL_FORMAT_YCbCr_420_SP_VENUS then
    (0, kFormatYCbCr420SemiPlanarVenus)
  else (-EINVAL, target)

/-! ## The composition cache -/

/-- The loop of `NeedsFrameBufferRefresh` from index `i` on, with `n` passes
left. -/
def NeedsFrameBufferRefresh.loop (d : HWCDisplay) (content_list : hwc_display_contents_1_t) :
    Nat → Nat → Bool
  | 0, _ => false
  | n + 1, i =>
      let hwc_layer := content_list.hwLayer i
      let layer := d.layer_stack_.layer i
      let layer_cache := d.layer_stack_cache_.layer_cache i
      if layer.composition = kCompositionGPUTarget then
        NeedsFrameBufferRefresh.loop d content_list n (i + 1)
      else if layer_cache.composition ≠ layer.composition then
        true
      else if layer.composition = kCompositionGPU ∧ layer_cache.handle ≠ hwc_layer.handle then
        true
      else
        NeedsFrameBufferRefresh.loop d content_list n (i + 1)

/-- The method `HWCDisplay::NeedsFrameBufferRefresh`. -/
def NeedsFrameBufferRefresh (d : HWCDisplay) (content_list : hwc_display_contents_1_t) :
    Bool :=
  let layer_count := d.layer_stack_.layer_count
  if d.layer_stack_cache_.layer_count ≠ layer_count ∨ d.layer_stack_.flags.skip_present = true ∨
      d.layer_stack_.flags.geometry_changed = true then
    true
  else
    NeedsFrameBufferRefresh.loop d content_list layer_count 0

/-- The loop of `CacheLayerStackInfo` from index `i` on, with `n` passes left,
over the slots of the cache. -/
def CacheLayerStackInfo.loop (layer_stack_ : LayerStack)
    (content_list : hwc_display_contents_1_t) :
    Nat → Nat → (Nat → LayerCache) → (Nat → LayerCache)
  | 0, _, layer_cache => layer_cache
  | n + 1, i, layer_cache =>
      let layer := layer_stack_.layer i
      if layer.composition = kCompositionGPUTarget then
        CacheLayerStackInfo.loop layer_stack_ content_list n (i + 1) layer_cache
      else
        CacheLayerStackInfo.loop layer_stack_ content_list n (i + 1)
          (Function.update layer_cache i
            { handle := (content_list.hwLayer i).handle, composition := layer.composition })

/-- The stores of the loop of `CacheLayerStackInfo` from index `i` on, with `n`
passes left: true when one of them is to a slot at or past `kMaxLayerCount`,
that is past the end of the array. -/
def CacheLayerStackInfo.pastEnd (layer_stack_ : LayerStack) (kMaxLayerCount : Nat) :
    Nat → Nat → Bool
  | 0, _ => false
  | n + 1, i =>
      let layer := layer_stack_.layer i
      if layer.composition = kCompositionGPUTarget then
        CacheLayerStackInfo.pastEnd layer_stack_ kMaxLayerCount n (i + 1)
      else
        decide (kMaxLayerCount ≤ i) ||
          CacheLayerStackInfo.pastEnd layer_stack_ kMaxLayerCount n (i + 1)

/-- The method `HWCDisplay::CacheLayerStackInfo`.  The stores to
`layer_cache[i]` are not checked against the length of the array; one that goes
past its end sets `overrun`. -/
def CacheLayerStackInfo (d : HWCDisplay) (content_list : hwc_display_contents_1_t) :
    HWCDisplay :=
  let layer_count := d.layer_stack_.layer_count
  { d with
    layer_stack_cache_ :=
      { layer_cache := CacheLayerStackInfo.loop d.layer_stack_ content_list layer_count 0
          d.layer_stack_cache_.layer_cache
        layer_count := layer_count
        kMaxLayerCount := d.layer_stack_cache_.kMaxLayerCount
        overrun := d.layer_stack_cache_.overrun ||
          CacheLayerStackInfo.pastEnd d.layer_stack_ d.layer_stack_cache_.kMaxLayerCount
            layer_count 0 } }

/-! ## `HWCDisplay::PrepareLayerStack` -/

/-- The loop over the visible rectangles of one layer: rectangle `j` of the
external layer is translated into rectangle `j` of the internal layer. -/
def PrepareLayerStack.setVisible : List hwc_rect_t → Nat → List LayerRect → List LayerRect
  | [], _, rects => rects
  | source :: rest, j, rects =>
      PrepareLayerStack.setVisible rest (j + 1) (rects.set j (SetRect source))

/-- The body of the configuration loop after the buffer block: rectangles,
composition, blending, transform, alpha and flags of layer `i`, given the
buffer descriptor and stack flags the buffer block left. -/
def PrepareLayerStack.configureLayer (layer_stack_cache_ : LayerStackCache) (i : Nat)
    (hwc_layer : hwc_layer_1_t) (layer_stack_ : LayerStack) (layer_buffer : LayerBuffer)
    (stack_flags : LayerStackFlags) : LayerStack :=
  let layer := layer_stack_.layer i
  let hwc_transform := hwc_layer.transform
  let skip := decide ((hwc_layer.flags &&& HWC_SKIP_LAYER) > 0)
  let layer : Layer :=
    { layer with
      input_buffer := layer_buffer
      dst_rect := SetRect hwc_layer.displayFrame
      src_rect := SetRectF hwc_layer.sourceCropf
      visible_regions :=
        { layer.visible_regions with
          rects := PrepareLayerStack.setVisible hwc_layer.visibleRegionScreen 0
            layer.visible_regions.rects }
      dirty_regions :=
        { layer.dirty_regions with
          rects := layer.dirty_regions.rects.set 0 (SetRect hwc_layer.dirtyRect) }
      composition := SetComposition hwc_layer.compositionType
      blending := SetBlending hwc_layer.blending
      transform :=
        { flip_horizontal := decide ((hwc_transform &&& HWC_TRANSFORM_FLIP_H) > 0)
          flip_vertical := decide ((hwc_transform &&& HWC_TRANSFORM_FLIP_V) > 0)
          rotation := if (hwc_transform &&& HWC_TRANSFORM_ROT_90) ≠ 0 then 90 else 0 }
      plane_alpha := hwc_layer.planeAlpha
      flags :=
        { skip := skip
          updating := decide ((layer_stack_cache_.layer_cache i).handle ≠ hwc_layer.handle) } }
  let stack_flags :=
    if skip = true then { stack_flags with skip_present := true } else stack_flags
  { layer_stack_.setLayer i layer with flags := stack_flags }

/-- The configuration loop ("Configure each layer") from index `i` on: the
status is `-EINVAL` as soon as a format is not recognised, and the stack is
returned as the loop left it. -/
def PrepareLayerStack.configure (layer_stack_cache_ : LayerStackCache) :
    List hwc_layer_1_t → Nat → LayerStack → Int × LayerStack
  | [], _, layer_stack_ => (0, layer_stack_)
  | hwc_layer :: rest, i, layer_stack_ =>
      let pvt_handle := hwc_layer.pvt_handle
      let layer_buffer := (layer_stack_.layer i).input_buffer
      if hwc_layer.handle ≠ 0 then
        let format := SetFormat pvt_handle.format layer_buffer.format
        if format.1 ≠ 0 then
          (-EINVAL, layer_stack_)
        else
          let layer_buffer :=
            { layer_buffer with
              format := format.2, width := pvt_handle.width, height := pvt_handle.height }
          let stack_flags := layer_stack_.flags
          let stack_flags :=
            if pvt_handle.bufferType = BUFFER_TYPE_VIDEO then
              { stack_flags with video_present := true }
            else stack_flags
          let stack_flags :=
            if (pvt_handle.flags &&& PRIV_FLAGS_SECURE_BUFFER) ≠ 0 then
              { stack_flags with secure_present := true }
            else stack_flags
          PrepareLayerStack.configure layer_stack_cache_ rest (i + 1)
            (PrepareLayerStack.configureLayer layer_stack_cache_ i hwc_layer layer_stack_
              layer_buffer stack_flags)
      else
        PrepareLayerStack.configure layer_stack_cache_ rest (i + 1)
          (PrepareLayerStack.configureLayer layer_stack_cache_ i hwc_layer layer_stack_
            layer_buffer layer_stack_.flags)

/-- The write-back loop from index `i` on: the composition type of each
external layer is set from the decision in the stack and `needs_fb_refresh`. -/
def PrepareLayerStack.writeBack (needs_fb_refresh : Bool) (layer_stack_ : LayerStack) :
    List hwc_layer_1_t → Nat → List hwc_layer_1_t
  | [], _ => []
  | hwc_layer :: rest, i =>
      let layer := layer_stack_.layer i
      let composition := layer.composition
      let composition :=
        if needs_fb_refresh = false ∧ composition ≠ kCompositionGPUTarget then kCompositionSDE
        else composition
      { hwc_layer with compositionType := SetCompositionHWC composition }
        :: PrepareLayerStack.writeBack needs_fb_refresh layer_stack_ rest (i + 1)

/-- The method `HWCDisplay::PrepareLayerStack`. -/
def PrepareLayerStack (display_intf_ : DisplayInterface) (d : HWCDisplay)
    (content_list : hwc_display_contents_1_t) : Outcome :=
  let num_hw_layers := content_list.numHwLayers
  if num_hw_layers ≤ 1 then
    { status := 0, display := d, content_list := content_list, events := [] }
  else
    let configured :=
      PrepareLayerStack.configure d.layer_stack_cache_ content_list.hwLayers 0 d.layer_stack_
    if configured.1 ≠ 0 then
      { status := configured.1, display := { d with layer_stack_ := configured.2 },
        content_list := content_list, events := [] }
    else
      let layer_stack_ : LayerStack :=
        { configured.2 with
          flags :=
            { configured.2.flags with
              geometry_changed := decide ((content_list.flags &&& HWC_GEOMETRY_CHANGED) > 0) } }
      let prepared := display_intf_.Prepare layer_stack_
      let d : HWCDisplay := { d with layer_stack_ := prepared.2 }
      if prepared.1 ≠ kErrorNone then
        { status := -EINVAL, display := d, content_list := content_list,
          events := [Event.enginePrepare] }
      else
        let needs_fb_refresh := NeedsFrameBufferRefresh d content_list
        let content_list : hwc_display_contents_1_t :=
          { content_list with
            hwLayers := PrepareLayerStack.writeBack needs_fb_refresh d.layer_stack_
              content_list.hwLayers 0 }
        { status := 0, display := CacheLayerStackInfo d content_list,
          content_list := content_list, events := [Event.enginePrepare] }

/-! ## `HWCDisplay::CommitLayerStack` -/

/-- The first loop of `CommitLayerStack` from index `i` on: plane 0 and the
acquire fence of each buffer descriptor are filled from the external layer. -/
def CommitLayerStack.attach : List hwc_layer_1_t → Nat → LayerStack → LayerStack
  | [], _, layer_stack_ => layer_stack_
  | hwc_layer :: rest, i, layer_stack_ =>
      let pvt_handle := hwc_layer.pvt_handle
      let layer := layer_stack_.layer i
      let layer_buffer := layer.input_buffer
      let layer_buffer :=
        if hwc_layer.handle ≠ 0 then
          { layer_buffer with
            planes0 :=
              { fd := pvt_handle.fd, offset := pvt_handle.offset, stride := pvt_handle.width } }
        else layer_buffer
      let layer_buffer := { layer_buffer with acquire_fence_fd := hwc_layer.acquireFenceFd }
      CommitLayerStack.attach rest (i + 1)
        (layer_stack_.setLayer i { layer with input_buffer := layer_buffer })

/-- The last loop of `CommitLayerStack` from index `i` on: the release fence is
copied out for SDE and GPU-target layers, and every non-negative acquire fence
is closed.  The result is the external layers and the `close` calls made. -/
def CommitLayerStack.release (layer_stack_ : LayerStack) :
    List hwc_layer_1_t → Nat → List hwc_layer_1_t × List Event
  | [], _ => ([], [])
  | hwc_layer :: rest, i =>
      let layer := layer_stack_.layer i
      let layer_buffer := layer.input_buffer
      let hwc_layer :=
        if layer.composition = kCompositionSDE ∨ layer.composition = kCompositionGPUTarget then
          { hwc_layer with releaseFenceFd := layer_buffer.release_fence_fd }
        else hwc_layer
      let closed :=
        if hwc_layer.acquireFenceFd ≥ 0 then [Event.close hwc_layer.acquireFenceFd] else []
      let released := CommitLayerStack.release layer_stack_ rest (i + 1)
      (hwc_layer :: released.1, closed ++ released.2)

/-- The method `HWCDisplay::CommitLayerStack`. -/
def CommitLayerStack (display_intf_ : DisplayInterface) (d : HWCDisplay)
    (content_list : hwc_display_contents_1_t) : Outcome :=
  let num_hw_layers := content_list.numHwLayers
  if num_hw_layers ≤ 1 then
    if num_hw_layers = 0 then
      { status := 0, display := d, content_list := content_list, events := [] }
    else
      let acquireFenceFd := (content_list.hwLayer 0).acquireFenceFd
      { status := 0, display := d, content_list := content_list,
        events := if acquireFenceFd ≥ 0 then [Event.close acquireFenceFd] else [] }
  else
    let layer_stack_ := CommitLayerStack.attach content_list.hwLayers 0 d.layer_stack_
    let committed := display_intf_.Commit layer_stack_
    let d : HWCDisplay := { d with layer_stack_ := committed.2 }
    if committed.1 ≠ kErrorNone then
      { status := -EINVAL, display := d, content_list := content_list,
        events := [Event.engineCommit] }
    else
      let released := CommitLayerStack.release d.layer_stack_ content_list.hwLayers 0
      { status := 0, display := d,
        content_list := { content_list with hwLayers := released.1 },
        events := Event.engineCommit :: released.2 }

/-! ## `HWCDisplayExternal` -/

/-- The method `HWCDisplayExternal::Prepare`. -/
def HWCDisplayExternal.Prepare (env : Env) (new_array : Nat → Nat) (stale : Nat → LayerRect)
    (display_intf_ : DisplayInterface) (d : HWCDisplay)
    (content_list : hwc_display_contents_1_t) : Outcome :=
  let allocated := AllocateLayerStack env new_array stale d content_list
  if allocated.1 ≠ 0 then
    { status := allocated.1, display := allocated.2, content_list := content_list,
      events := [] }
  else
    let d := allocated.2
    let d : HWCDisplay := { d with layer_stack_ := { d.layer_stack_ with retire_fence_fd := -1 } }
    let prepared := PrepareLayerStack display_intf_ d content_list
    if prepared.status ≠ 0 then
      prepared
    else
      { prepared with status := 0 }

/-- The method `HWCDisplayExternal::Commit`. -/
def HWCDisplayExternal.Commit (display_intf_ : DisplayInterface) (d : HWCDisplay)
    (content_list : hwc_display_contents_1_t) : Outcome :=
  let committed := CommitLayerStack display_intf_ d content_list
  if committed.status ≠ 0 then
    committed
  else
    { committed with
      content_list :=
        { committed.content_list with
          retireFenceFd := committed.display.layer_stack_.retire_fence_fd } }

/-! ## Frames used in the concrete checks -/

/-- An external layer with the given composition type, handle, acquire fence
and number of visible rectangles; every other field is zero. -/
def mkLayer (compositionType : Int) (handle : Nat) (acquireFenceFd : Int) (numRects : Nat) :
    hwc_layer_1_t :=
  { hwc_layer_1_t.zero with
    compositionType := compositionType
    handle := handle
    pvt_handle := { hwc_layer_1_t.zero.pvt_handle with format := HAL_PIXEL_FORMAT_RGBA_8888 }
    acquireFenceFd := acquireFenceFd
    releaseFenceFd := -1
    visibleRegionScreen := List.replicate numRects
      { left := 0, top := 0, right := 0, bottom := 0 } }

/-- A frame of the given layers with no frame flag set. -/
def mkFrame (hwLayers : List hwc_layer_1_t) : hwc_display_contents_1_t :=
  { retireFenceFd := -1, flags := 0, hwLayers := hwLayers }

/-- Object sizes and allocation step used in the concrete checks. -/
def env0 : Env :=
  { sizeof_Layer := 96, sizeof_LayerBuffer := 64, sizeof_LayerRect := 16, kSizeSteps := 1024 }

/-- An engine that accepts every stack and leaves it as it is. -/
def engineOk : DisplayInterface :=
  { Prepare := fun s => (kErrorNone, s), Commit := fun s => (kErrorNone, s) }

/-- An engine that rejects every stack and leaves it as it is. -/
def engineFail : DisplayInterface :=
  { Prepare := fun s => (1, s), Commit := fun s => (1, s) }

/-! ## Notions used to state the properties -/

/-- The stack that `PrepareLayerStack` hands to the engine's prepare pass on a
frame whose formats are all recognised: the configured layers, with
`geometry_changed` taken from the frame flags. -/
def PrepareLayerStack.engineInput (d : HWCDisplay) (content_list : hwc_display_contents_1_t) :
    LayerStack :=
  let configured :=
    PrepareLayerStack.configure d.layer_stack_cache_ content_list.hwLayers 0 d.layer_stack_
  { configured.2 with
    flags :=
      { configured.2.flags with
        geometry_changed := decide ((content_list.flags &&& HWC_GEOMETRY_CHANGED) > 0) } }

/-- The seven pixel formats that `SetFormat` recognises. -/
def RecognisedFormat (format : Int) : Prop :=
  format = HAL_PIXEL_FORMAT_RGBA_8888 ∨ format = HAL_PIXEL_FORMAT_BGRA_8888 ∨
  format = HAL_PIXEL_FORMAT_RGBX_8888 ∨ format = HAL_PIXEL_FORMAT_BGRX_8888 ∨
  format = HAL_PIXEL_FORMAT_RGB_888 ∨ format = HAL_PIXEL_FORMAT_RGB_565 ∨
  format = HAL_PIXEL_FORMAT_YCbCr_420_SP_VENUS

instance (format : Int) : Decidable (RecognisedFormat format) := by
  unfold RecognisedFormat
  infer_instance

/-- Some layer of the frame has a buffer whose pixel format is not
recognised. -/
def HasBadFormat (content_list : hwc_display_contents_1_t) : Prop :=
  ∃ hwc_layer ∈ content_list.hwLayers,
    hwc_layer.handle ≠ 0 ∧ ¬ RecognisedFormat hwc_layer.pvt_handle.format

instance (content_list : hwc_display_contents_1_t) : Decidable (HasBadFormat content_list) := by
  unfold HasBadFormat
  infer_instance

/-- The exact byte requirement of a frame as a closed formula:
`N * (sizeof(Layer) + sizeof(LayerBuffer))` plus, for each layer,
`(numRects + 1) * sizeof(LayerRect)`. -/
def requirement (env : Env) (content_list : hwc_display_contents_1_t) : Nat :=
  content_list.numHwLayers * (env.sizeof_Layer + env.sizeof_LayerBuffer) +
    (content_list.hwLayers.map
      fun hwc_layer => (hwc_layer.visibleRegionScreen.length + 1) * env.sizeof_LayerRect).sum

/-- One call of `AllocateLayerStack` in the life of a display: what the
allocator would return, what the storage holds, and the frame. -/
structure AllocCall where
  new_array : Nat → Nat
  stale : Nat → LayerRect
  content_list : hwc_display_contents_1_t

/-- The display after a sequence of `AllocateLayerStack` calls, whether they
succeed or fail. -/
def AllocateLayerStack.run (env : Env) : HWCDisplay → List AllocCall → HWCDisplay
  | d, [] => d
  | d, call :: rest =>
      AllocateLayerStack.run env
        (AllocateLayerStack env call.new_array call.stale d call.content_list).2 rest

/-- A rectangle that differs from the default one, standing for what an
earlier frame left in the arena. -/
def sentinel : LayerRect := { left := 7, top := 7, right := 7, bottom := 7 }

/-- A frame of one layer with two visible rectangles. -/
def frameTwoRects : hwc_display_contents_1_t :=
  mkFrame [mkLayer HWC_FRAMEBUFFER_TARGET 21 (-1) 2]

/-- A frame of two layers, an application layer with acquire fence 5 and the
framebuffer target with acquire fence 6. -/
def frame2 : hwc_display_contents_1_t :=
  mkFrame [mkLayer HWC_FRAMEBUFFER 11 5 1, mkLayer HWC_FRAMEBUFFER_TARGET 12 6 1]

/-- The display after `HWCDisplayExternal::Prepare` of `frame2` on a fresh
display, with an engine that accepts the stack. -/
def display2 : HWCDisplay :=
  (HWCDisplayExternal.Prepare env0 (fun _ => 4096) (fun _ => LayerRect.init) engineOk
    HWCDisplay.init frame2).display

/-- The display after `AllocateLayerStack` of `frame2` on a fresh display. -/
def allocated2 : HWCDisplay :=
  (AllocateLayerStack env0 (fun _ => 4096) (fun _ => LayerRect.init) HWCDisplay.init frame2).2

/-- A frame of one layer, the framebuffer target, with acquire fence 9. -/
def frame1 : hwc_display_contents_1_t :=
  mkFrame [mkLayer HWC_FRAMEBUFFER_TARGET 31 9 1]

/-- The frame `frame2` with an unrecognised pixel format on its first layer. -/
def frameBadFormat : hwc_display_contents_1_t :=
  mkFrame
    [{ mkLayer HWC_FRAMEBUFFER 11 5 1 with
       pvt_handle := { hwc_layer_1_t.zero.pvt_handle with format := 77 } },
     mkLayer HWC_FRAMEBUFFER_TARGET 12 6 1]

/-- Two calls of `AllocateLayerStack` used in the concrete checks: `frame1`
with an allocator returning address 4096, `frame2` with one returning 8192. -/
def callFrame1 : AllocCall :=
  { new_array := fun _ => 4096, stale := fun _ => LayerRect.init, content_list := frame1 }

/-- The second call of the concrete checks. -/
def callFrame2 : AllocCall :=
  { new_array := fun _ => 8192, stale := fun _ => LayerRect.init, content_list := frame2 }

/-- A frame without layers. -/
def frame0 : hwc_display_contents_1_t := mkFrame []

/-- The frame `frame2` with a new buffer handle, 99, on its first layer. -/
def frameNewHandle : hwc_display_contents_1_t :=
  mkFrame [mkLayer HWC_FRAMEBUFFER 99 5 1, mkLayer HWC_FRAMEBUFFER_TARGET 12 6 1]

/-- The display of `display2` once the engine has marked layer 0 GPU-composed
and the cache has recorded that frame. -/
def displayGPU : HWCDisplay :=
  CacheLayerStackInfo
    { display2 with
      layer_stack_ :=
        display2.layer_stack_.setLayer 0
          { display2.layer_stack_.layer 0 with composition := kCompositionGPU } }
    frame2

/-- The configuration loop gets past an external layer: its handle is null or
its pixel format is recognised. -/
def GoodFormat (hwc_layer : hwc_layer_1_t) : Prop :=
  hwc_layer.handle ≠ 0 → RecognisedFormat hwc_layer.pvt_handle.format

instance (hwc_layer : hwc_layer_1_t) : Decidable (GoodFormat hwc_layer) := by
  unfold GoodFormat
  infer_instance

/-- The frame `frame2` with the skip bit on its first layer. -/
def frameSkip : hwc_display_contents_1_t :=
  mkFrame
    [{ mkLayer HWC_FRAMEBUFFER 11 5 1 with flags := HWC_SKIP_LAYER },
     mkLayer HWC_FRAMEBUFFER_TARGET 12 6 1]

/-- The frame `frame2` with a horizontal flip and a 90 degree rotation on its
first layer. -/
def frameRotated : hwc_display_contents_1_t :=
  mkFrame
    [{ mkLayer HWC_FRAMEBUFFER 11 5 1 with transform := 5 },
     mkLayer HWC_FRAMEBUFFER_TARGET 12 6 1]

/-- An engine that accepts every stack and marks layer 0 GPU-composed. -/
def engineGPU : DisplayInterface :=
  { Prepare := fun s =>
      (kErrorNone, s.setLayer 0 { s.layer 0 with composition := kCompositionGPU }),
    Commit := fun s => (kErrorNone, s) }

/-- A frame of three layers whose second layer has an unrecognised pixel
format. -/
def frameBadSecond : hwc_display_contents_1_t :=
  mkFrame
    [mkLayer HWC_FRAMEBUFFER 11 5 1,
     { mkLayer HWC_FRAMEBUFFER 13 7 1 with
       pvt_handle := { hwc_layer_1_t.zero.pvt_handle with format := 77 } },
     mkLayer HWC_FRAMEBUFFER_TARGET 12 6 1]

/-- The display after `AllocateLayerStack` of `frameBadSecond` on a fresh
display. -/
def allocatedBadSecond : HWCDisplay :=
  (AllocateLayerStack env0 (fun _ => 4096) (fun _ => LayerRect.init) HWCDisplay.init
    frameBadSecond).2

/-- A sub-allocation of the arena: the address of its first byte and its size
in bytes. -/
structure Region where
  addr : Nat
  bytes : Nat
  deriving DecidableEq, Repr

/-- The three regions a layer points to, in the order they are carved: the
buffer descriptor, the visible rectangles, the dirty rectangles. -/
def Layer.regions (env : Env) (layer : Layer) : List Region :=
  [{ addr := layer.input_buffer_addr, bytes := env.sizeof_LayerBuffer },
   { addr := layer.visible_regions.rect,
     bytes := layer.visible_regions.count * env.sizeof_LayerRect },
   { addr := layer.dirty_regions.rect,
     bytes := layer.dirty_regions.count * env.sizeof_LayerRect }]

/-- The regions of the layers of a layer array, layer by layer. -/
def layerRegions (env : Env) : List Layer → List Region
  | [] => []
  | layer :: rest => Layer.regions env layer ++ layerRegions env rest

/-- All the regions of a layer stack: the layer array, then the regions of each
layer. -/
def LayerStack.regions (env : Env) (s : LayerStack) : List Region :=
  { addr := s.layers_addr, bytes := s.layer_count * env.sizeof_Layer } ::
    layerRegions env s.layers

/-- The sizes the regions of a frame are to have, layer by layer: a buffer
descriptor, `numRects` rectangles, one rectangle. -/
def layerSizes (env : Env) : List hwc_layer_1_t → List Nat
  | [] => []
  | hwc_layer :: rest =>
      [env.sizeof_LayerBuffer, hwc_layer.visibleRegionScreen.length * env.sizeof_LayerRect,
        env.sizeof_LayerRect] ++ layerSizes env rest

/-- The regions follow one another without a gap from `start` to `stop`: the
first begins at `start`, each next one where the one before ends, and the last
ends at `stop`. -/
def Contiguous : Nat → List Region → Nat → Prop
  | start, [], stop => start = stop
  | start, region :: rest, stop =>
      region.addr = start ∧ Contiguous (start + region.bytes) rest stop

instance Contiguous.decidable : (start : Nat) → (regions : List Region) → (stop : Nat) →
    Decidable (Contiguous start regions stop)
  | start, [], stop => inferInstanceAs (Decidable (start = stop))
  | start, region :: rest, stop =>
      have := Contiguous.decidable (start + region.bytes) rest stop
      inferInstanceAs (Decidable (region.addr = start ∧ Contiguous (start + region.bytes) rest stop))

/-- A frame of 34 layers: 33 application layers and the framebuffer target. -/
def frame34 : hwc_display_contents_1_t :=
  mkFrame (List.replicate 33 (mkLayer HWC_FRAMEBUFFER 11 (-1) 1) ++
    [mkLayer HWC_FRAMEBUFFER_TARGET 12 (-1) 1])

/-- The display after `AllocateLayerStack` of `frame34` on a fresh display. -/
def allocated34 : HWCDisplay :=
  (AllocateLayerStack env0 (fun _ => 4096) (fun _ => LayerRect.init) HWCDisplay.init
    frame34).2

/-- The display of `allocated34` with the stack of `frame34` as an accepting
engine returns it, before the cache update. -/
def configured34 : HWCDisplay :=
  { allocated34 with
    layer_stack_ := (engineOk.Prepare (PrepareLayerStack.engineInput allocated34 frame34)).2 }

/-! ## The redraw test -/

/-- The loop of the redraw test answers true exactly when one of the indices it
visits carries a changed decision on a layer that is not the GPU target, or a
changed handle on a GPU-composed layer. -/
theorem NeedsFrameBufferRefresh.loop_eq_true_iff (d : HWCDisplay)
    (content_list : hwc_display_contents_1_t) (n i : Nat) :
    NeedsFrameBufferRefresh.loop d content_list n i = true ↔
      ∃ k, i ≤ k ∧ k < i + n ∧
        (((d.layer_stack_.layer k).composition ≠ kCompositionGPUTarget ∧
            (d.layer_stack_cache_.layer_cache k).composition ≠
              (d.layer_stack_.layer k).composition) ∨
          ((d.layer_stack_.layer k).composition = kCompositionGPU ∧
            (d.layer_stack_cache_.layer_cache k).handle ≠ (content_list.hwLayer k).handle)) := by
  induction n generalizing i with
  | zero =>
      simp only [NeedsFrameBufferRefresh.loop, Nat.add_zero]
      constructor
      · intro h; cases h
      · rintro ⟨k, h1, h2, _⟩; omega
  | succ n ih =>
      have step : ∀ (P : Nat → Prop), ¬ P i →
          ((∃ k, i + 1 ≤ k ∧ k < i + 1 + n ∧ P k) ↔ ∃ k, i ≤ k ∧ k < i + (n + 1) ∧ P k) := by
        intro P hi
        constructor
        · rintro ⟨k, h1, h2, h3⟩
          exact ⟨k, by omega, by omega, h3⟩
        · rintro ⟨k, h1, h2, h3⟩
          have hne : k ≠ i := fun e => hi (e ▸ h3)
          exact ⟨k, by omega, by omega, h3⟩
      unfold NeedsFrameBufferRefresh.loop
      simp only []
      by_cases hT : (d.layer_stack_.layer i).composition = kCompositionGPUTarget
      · rw [if_pos hT, ih (i + 1)]
        apply step
        rintro (⟨h, _⟩ | ⟨h, _⟩)
        · exact h hT
        · rw [hT] at h; cases h
      · rw [if_neg hT]
        by_cases hC : (d.layer_stack_cache_.layer_cache i).composition ≠
            (d.layer_stack_.layer i).composition
        · rw [if_pos hC]
          simp only [true_iff]
          exact ⟨i, le_refl i, by omega, Or.inl ⟨hT, hC⟩⟩
        · rw [if_neg hC]
          by_cases hH : (d.layer_stack_.layer i).composition = kCompositionGPU ∧
              (d.layer_stack_cache_.layer_cache i).handle ≠ (content_list.hwLayer i).handle
          · rw [if_pos hH]
            simp only [true_iff]
            exact ⟨i, le_refl i, by omega, Or.inr hH⟩
          · rw [if_neg hH, ih (i + 1)]
            apply step
            rintro (⟨_, h⟩ | h)
            · exact hC h
            · exact hH h

/-- C1: `NeedsFrameBufferRefresh` returns true if and only if the cached layer
count differs from the stack's layer count, or `skip_present` is set, or
`geometry_changed` is set, or some layer below the layer count is not the GPU
target and its composition differs from the cached one, or some layer below the
layer count is GPU-composed and its handle differs from the cached handle. -/
theorem NeedsFrameBufferRefresh_iff (d : HWCDisplay) (content_list : hwc_display_contents_1_t) :
    NeedsFrameBufferRefresh d content_list = true ↔
      (d.layer_stack_cache_.layer_count ≠ d.layer_stack_.layer_count ∨
        d.layer_stack_.flags.skip_present = true ∨
        d.layer_stack_.flags.geometry_changed = true ∨
        (∃ i, i < d.layer_stack_.layer_count ∧
          (d.layer_stack_.layer i).composition ≠ kCompositionGPUTarget ∧
          (d.layer_stack_cache_.layer_cache i).composition ≠
            (d.layer_stack_.layer i).composition) ∨
        (∃ i, i < d.layer_stack_.layer_count ∧
          (d.layer_stack_.layer i).composition = kCompositionGPU ∧
          (d.layer_stack_cache_.layer_cache i).handle ≠ (content_list.hwLayer i).handle)) := by
  unfold NeedsFrameBufferRefresh
  simp only []
  by_cases h : d.layer_stack_cache_.layer_count ≠ d.layer_stack_.layer_count ∨
      d.layer_stack_.flags.skip_present = true ∨ d.layer_stack_.flags.geometry_changed = true
  · rw [if_pos h]
    simp only [true_iff]
    rcases h with h | h | h
    · exact Or.inl h
    · exact Or.inr (Or.inl h)
    · exact Or.inr (Or.inr (Or.inl h))
  · rw [if_neg h, NeedsFrameBufferRefresh.loop_eq_true_iff]
    constructor
    · rintro ⟨k, _, h2, h3 | h3⟩
      · exact Or.inr (Or.inr (Or.inr (Or.inl ⟨k, by omega, h3⟩)))
      · exact Or.inr (Or.inr (Or.inr (Or.inr ⟨k, by omega, h3⟩)))
    · rintro (h1 | h1 | h1 | ⟨k, hk, h3⟩ | ⟨k, hk, h3⟩)
      · exact absurd (Or.inl h1) h
      · exact absurd (Or.inr (Or.inl h1)) h
      · exact absurd (Or.inr (Or.inr h1)) h
      · exact ⟨k, Nat.zero_le k, by omega, Or.inl h3⟩
      · exact ⟨k, Nat.zero_le k, by omega, Or.inr h3⟩

/-! ## Default state of the carved objects -/

/-- C2: on a frame of one layer with two visible rectangles, carved from storage
that holds `sentinel` rectangles, `AllocateLayerStack` succeeds and leaves the
second visible rectangle of the layer as the storage held it: the buffer
descriptor, the first visible rectangle and the dirty rectangle are default,
the second visible rectangle is not. -/
theorem AllocateLayerStack_second_visible_rect_stale :
    (AllocateLayerStack env0 (fun _ => 4096) (fun _ => sentinel) HWCDisplay.init
        frameTwoRects).1 = 0 ∧
      ((AllocateLayerStack env0 (fun _ => 4096) (fun _ => sentinel) HWCDisplay.init
        frameTwoRects).2.layer_stack_.layer 0).input_buffer = LayerBuffer.init ∧
      ((AllocateLayerStack env0 (fun _ => 4096) (fun _ => sentinel) HWCDisplay.init
        frameTwoRects).2.layer_stack_.layer 0).dirty_regions.rects = [LayerRect.init] ∧
      ((AllocateLayerStack env0 (fun _ => 4096) (fun _ => sentinel) HWCDisplay.init
        frameTwoRects).2.layer_stack_.layer 0).visible_regions.count = 2 ∧
      ((AllocateLayerStack env0 (fun _ => 4096) (fun _ => sentinel) HWCDisplay.init
        frameTwoRects).2.layer_stack_.layer 0).visible_regions.rects =
          [LayerRect.init, sentinel] ∧
      sentinel ≠ LayerRect.init := by
  decide

/-! ## Acquire fences on the commit path -/

/-- C3: on the two-layer frame `frame2`, whose acquire fences are 5 and 6, a
commit that the engine rejects returns `-EINVAL` after the engine call alone:
no descriptor is closed.  The same commit with an accepting engine closes 5
and 6 once each. -/
theorem CommitLayerStack_rejected_closes_nothing :
    (CommitLayerStack engineFail display2 frame2).status = -EINVAL ∧
      (CommitLayerStack engineFail display2 frame2).events = [Event.engineCommit] ∧
      (CommitLayerStack engineOk display2 frame2).status = 0 ∧
      (CommitLayerStack engineOk display2 frame2).events =
        [Event.engineCommit, Event.close 5, Event.close 6] := by
  decide

/-! ## The composition types written back -/

/-- The write-back loop keeps the number of external layers. -/
theorem PrepareLayerStack.writeBack_length (needs : Bool) (layer_stack_ : LayerStack)
    (l : List hwc_layer_1_t) (k : Nat) :
    (PrepareLayerStack.writeBack needs layer_stack_ l k).length = l.length := by
  induction l generalizing k with
  | nil => rfl
  | cons a t ih => simp [PrepareLayerStack.writeBack, ih]

/-- The write-back loop changes entry `j` in its composition type only, which
it sets from the decision of layer `k + j` and the redraw flag. -/
theorem PrepareLayerStack.writeBack_getD (needs : Bool) (layer_stack_ : LayerStack)
    (l : List hwc_layer_1_t) (k j : Nat) (hj : j < l.length) :
    (PrepareLayerStack.writeBack needs layer_stack_ l k).getD j hwc_layer_1_t.zero =
      { l.getD j hwc_layer_1_t.zero with
        compositionType := SetCompositionHWC
          (if needs = false ∧ (layer_stack_.layer (k + j)).composition ≠ kCompositionGPUTarget
            then kCompositionSDE else (layer_stack_.layer (k + j)).composition) } := by
  induction l generalizing k j with
  | nil => simp at hj
  | cons a t ih =>
      cases j with
      | zero => simp [PrepareLayerStack.writeBack]
      | succ j =>
          have hj2 : j < t.length := by simpa using hj
          have e : k + (j + 1) = (k + 1) + j := by omega
          simp only [PrepareLayerStack.writeBack, List.getD_cons_succ]
          rw [ih (k + 1) j hj2, e]

/-- `CacheLayerStackInfo` leaves the layer stack as it is. -/
theorem CacheLayerStackInfo_layer_stack (d : HWCDisplay)
    (content_list : hwc_display_contents_1_t) :
    (CacheLayerStackInfo d content_list).layer_stack_ = d.layer_stack_ := rfl

/-- On a frame of two or more layers, the outcome of `PrepareLayerStack` when
the formats are recognised and the engine accepts the stack. -/
theorem PrepareLayerStack_of_success (display_intf_ : DisplayInterface) (d : HWCDisplay)
    (content_list : hwc_display_contents_1_t) (h2 : 2 ≤ content_list.numHwLayers)
    (hc : (PrepareLayerStack.configure d.layer_stack_cache_ content_list.hwLayers 0
      d.layer_stack_).1 = 0)
    (he : (display_intf_.Prepare (PrepareLayerStack.engineInput d content_list)).1 = kErrorNone) :
    PrepareLayerStack display_intf_ d content_list =
      (let d1 : HWCDisplay :=
        { d with
          layer_stack_ :=
            (display_intf_.Prepare (PrepareLayerStack.engineInput d content_list)).2 }
      let content1 : hwc_display_contents_1_t :=
        { content_list with
          hwLayers := PrepareLayerStack.writeBack (NeedsFrameBufferRefresh d1 content_list)
            d1.layer_stack_ content_list.hwLayers 0 }
      { status := 0, display := CacheLayerStackInfo d1 content1, content_list := content1,
        events := [Event.enginePrepare] }) := by
  have h1 : ¬ content_list.numHwLayers ≤ 1 := by omega
  unfold PrepareLayerStack
  simp only [PrepareLayerStack.engineInput] at he
  simp only [h1, if_false, hc, ne_eq, not_true_eq_false, he, PrepareLayerStack.engineInput]

/-- On a frame of two or more layers, the outcome of `PrepareLayerStack` when
the configuration loop fails: its status, the stack as the loop left it, no
engine call. -/
theorem PrepareLayerStack_of_configure_error (display_intf_ : DisplayInterface)
    (d : HWCDisplay) (content_list : hwc_display_contents_1_t)
    (h2 : 2 ≤ content_list.numHwLayers)
    (hc : (PrepareLayerStack.configure d.layer_stack_cache_ content_list.hwLayers 0
      d.layer_stack_).1 ≠ 0) :
    PrepareLayerStack display_intf_ d content_list =
      { status := (PrepareLayerStack.configure d.layer_stack_cache_ content_list.hwLayers 0
          d.layer_stack_).1,
        display :=
          { d with
            layer_stack_ := (PrepareLayerStack.configure d.layer_stack_cache_
              content_list.hwLayers 0 d.layer_stack_).2 },
        content_list := content_list, events := [] } := by
  have h1 : ¬ content_list.numHwLayers ≤ 1 := by omega
  unfold PrepareLayerStack
  simp only [h1, if_false, ne_eq, hc, not_false_eq_true, if_true]

/-- On a frame of two or more layers, the outcome of `PrepareLayerStack` when
the formats are recognised and the engine rejects the stack. -/
theorem PrepareLayerStack_of_engine_error (display_intf_ : DisplayInterface)
    (d : HWCDisplay) (content_list : hwc_display_contents_1_t)
    (h2 : 2 ≤ content_list.numHwLayers)
    (hc : (PrepareLayerStack.configure d.layer_stack_cache_ content_list.hwLayers 0
      d.layer_stack_).1 = 0)
    (he : (display_intf_.Prepare (PrepareLayerStack.engineInput d content_list)).1 ≠ kErrorNone) :
    PrepareLayerStack display_intf_ d content_list =
      { status := -EINVAL,
        display :=
          { d with
            layer_stack_ :=
              (display_intf_.Prepare (PrepareLayerStack.engineInput d content_list)).2 },
        content_list := content_list, events := [Event.enginePrepare] } := by
  have h1 : ¬ content_list.numHwLayers ≤ 1 := by omega
  unfold PrepareLayerStack
  simp only [PrepareLayerStack.engineInput] at he
  simp only [h1, if_false, hc, ne_eq, not_true_eq_false, he, not_false_eq_true, if_true,
    PrepareLayerStack.engineInput]

/-- The status of `SetFormat` is `0` exactly on the seven recognised formats. -/
theorem SetFormat_status_eq_zero_iff (source : Int) (target : LayerBufferFormat) :
    (SetFormat source target).1 = 0 ↔ RecognisedFormat source := by
  unfold SetFormat RecognisedFormat
  split_ifs <;> simp_all [EINVAL]

/-- The status of `SetFormat` is `0` or `-EINVAL`. -/
theorem SetFormat_status (source : Int) (target : LayerBufferFormat) :
    (SetFormat source target).1 = 0 ∨ (SetFormat source target).1 = -EINVAL := by
  unfold SetFormat
  split_ifs <;> simp

/-- The status of the configuration loop is `0` or `-EINVAL`. -/
theorem PrepareLayerStack.configure_status (layer_stack_cache_ : LayerStackCache)
    (l : List hwc_layer_1_t) (i : Nat) (layer_stack_ : LayerStack) :
    (PrepareLayerStack.configure layer_stack_cache_ l i layer_stack_).1 = 0 ∨
      (PrepareLayerStack.configure layer_stack_cache_ l i layer_stack_).1 = -EINVAL := by
  induction l generalizing i layer_stack_ with
  | nil => exact Or.inl rfl
  | cons a t ih =>
      unfold PrepareLayerStack.configure
      simp only []
      by_cases h1 : a.handle ≠ 0
      · rw [if_pos h1]
        by_cases h2 : (SetFormat a.pvt_handle.format
            (layer_stack_.layer i).input_buffer.format).1 ≠ 0
        · rw [if_pos h2]
          exact Or.inr rfl
        · rw [if_neg h2]
          exact ih _ _
      · rw [if_neg h1]
        exact ih _ _

/-- The configuration loop succeeds exactly when every layer with a non-null
handle has a recognised format. -/
theorem PrepareLayerStack.configure_status_eq_zero_iff (layer_stack_cache_ : LayerStackCache)
    (l : List hwc_layer_1_t) (i : Nat) (layer_stack_ : LayerStack) :
    (PrepareLayerStack.configure layer_stack_cache_ l i layer_stack_).1 = 0 ↔
      ∀ hwc_layer ∈ l, hwc_layer.handle ≠ 0 → RecognisedFormat hwc_layer.pvt_handle.format := by
  induction l generalizing i layer_stack_ with
  | nil => simp [PrepareLayerStack.configure]
  | cons a t ih =>
      unfold PrepareLayerStack.configure
      simp only [List.mem_cons, forall_eq_or_imp]
      by_cases h1 : a.handle ≠ 0
      · rw [if_pos h1]
        by_cases h2 : (SetFormat a.pvt_handle.format
            (layer_stack_.layer i).input_buffer.format).1 ≠ 0
        · rw [if_pos h2]
          have hbad : ¬ RecognisedFormat a.pvt_handle.format := fun hr =>
            h2 ((SetFormat_status_eq_zero_iff _ _).2 hr)
          constructor
          · intro h; simp [EINVAL] at h
          · intro h; exact absurd (h.1 h1) hbad
        · rw [if_neg h2, ih]
          have hgood : RecognisedFormat a.pvt_handle.format :=
            (SetFormat_status_eq_zero_iff _ _).1 (not_not.1 h2)
          exact ⟨fun h => ⟨fun _ => hgood, h⟩, fun h => h.2⟩
      · rw [if_neg h1, ih]
        exact ⟨fun h => ⟨fun hn => absurd hn h1, h⟩, fun h => h.2⟩

/-- On a frame of two or more layers, a zero status of `PrepareLayerStack`
means that the configuration loop succeeded and the engine accepted the
stack. -/
theorem PrepareLayerStack_status_eq_zero (display_intf_ : DisplayInterface) (d : HWCDisplay)
    (content_list : hwc_display_contents_1_t) (h2 : 2 ≤ content_list.numHwLayers)
    (hs : (PrepareLayerStack display_intf_ d content_list).status = 0) :
    (PrepareLayerStack.configure d.layer_stack_cache_ content_list.hwLayers 0
        d.layer_stack_).1 = 0 ∧
      (display_intf_.Prepare (PrepareLayerStack.engineInput d content_list)).1 = kErrorNone := by
  by_cases hc : (PrepareLayerStack.configure d.layer_stack_cache_ content_list.hwLayers 0
      d.layer_stack_).1 = 0
  · refine ⟨hc, ?_⟩
    by_contra he
    rw [PrepareLayerStack_of_engine_error display_intf_ d content_list h2 hc he] at hs
    simp [EINVAL] at hs
  · rw [PrepareLayerStack_of_configure_error display_intf_ d content_list h2 hc] at hs
    exact absurd hs hc

/-- C4: when `PrepareLayerStack` succeeds on a frame of two or more layers, the
composition type written to external layer `i` is fixed by the engine's
decision for layer `i` and by `NeedsFrameBufferRefresh` taken on the engine's
stack against the cache as it was before the call: `HWC_FRAMEBUFFER_TARGET`
for the GPU target; otherwise `HWC_OVERLAY` when no redraw is needed, and when
one is needed `HWC_OVERLAY` for an SDE layer and `HWC_FRAMEBUFFER` for a
GPU-composed layer. -/
theorem PrepareLayerStack_writes_composition (display_intf_ : DisplayInterface)
    (d : HWCDisplay) (content_list : hwc_display_contents_1_t)
    (h2 : 2 ≤ content_list.numHwLayers)
    (hs : (PrepareLayerStack display_intf_ d content_list).status = 0)
    (i : Nat) (hi : i < content_list.numHwLayers) :
    ((PrepareLayerStack display_intf_ d content_list).content_list.hwLayer i).compositionType =
      (let engine_stack :=
        (display_intf_.Prepare (PrepareLayerStack.engineInput d content_list)).2
      let decision := (engine_stack.layer i).composition
      let redraw := NeedsFrameBufferRefresh { d with layer_stack_ := engine_stack } content_list
      if decision = kCompositionGPUTarget then HWC_FRAMEBUFFER_TARGET
      else if redraw = false then HWC_OVERLAY
      else if decision = kCompositionSDE then HWC_OVERLAY
      else HWC_FRAMEBUFFER) := by
  obtain ⟨hc, he⟩ := PrepareLayerStack_status_eq_zero display_intf_ d content_list h2 hs
  rw [PrepareLayerStack_of_success display_intf_ d content_list h2 hc he]
  simp only [hwc_display_contents_1_t.hwLayer]
  rw [PrepareLayerStack.writeBack_getD _ _ _ _ _ hi]
  simp only [Nat.zero_add]
  generalize ((display_intf_.Prepare
    (PrepareLayerStack.engineInput d content_list)).2.layer i).composition = c
  generalize NeedsFrameBufferRefresh _ content_list = r
  cases c <;> cases r <;> simp [SetCompositionHWC]

/-- C4 at a concrete frame: `frame2` after allocation, with an accepting
engine, layer 0. -/
theorem PrepareLayerStack_writes_composition_witness :
    ((PrepareLayerStack engineOk allocated2 frame2).content_list.hwLayer 0).compositionType =
      (let engine_stack := (engineOk.Prepare (PrepareLayerStack.engineInput allocated2 frame2)).2
      let decision := (engine_stack.layer 0).composition
      let redraw := NeedsFrameBufferRefresh { allocated2 with layer_stack_ := engine_stack } frame2
      if decision = kCompositionGPUTarget then HWC_FRAMEBUFFER_TARGET
      else if redraw = false then HWC_OVERLAY
      else if decision = kCompositionSDE then HWC_OVERLAY
      else HWC_FRAMEBUFFER) :=
  PrepareLayerStack_writes_composition engineOk allocated2 frame2 (by decide) (by decide) 0
    (by decide)

/-! ## The cache update -/

/-- Slot `k` after the loop of the cache update: the current handle and
decision when the loop visits `k` and layer `k` is not the GPU target, the old
slot otherwise. -/
theorem CacheLayerStackInfo.loop_apply (layer_stack_ : LayerStack)
    (content_list : hwc_display_contents_1_t) (n i : Nat) (layer_cache : Nat → LayerCache)
    (k : Nat) :
    CacheLayerStackInfo.loop layer_stack_ content_list n i layer_cache k =
      if i ≤ k ∧ k < i + n ∧ (layer_stack_.layer k).composition ≠ kCompositionGPUTarget then
        { handle := (content_list.hwLayer k).handle,
          composition := (layer_stack_.layer k).composition }
      else layer_cache k := by
  induction n generalizing i layer_cache with
  | zero =>
      have h : ¬ (i ≤ k ∧ k < i + 0 ∧
          (layer_stack_.layer k).composition ≠ kCompositionGPUTarget) := by
        rintro ⟨h1, h2, _⟩; omega
      rw [if_neg h]
      rfl
  | succ n ih =>
      unfold CacheLayerStackInfo.loop
      simp only []
      by_cases hT : (layer_stack_.layer i).composition = kCompositionGPUTarget
      · rw [if_pos hT, ih]
        by_cases hk : k = i
        · subst hk
          have h1 : ¬ (k + 1 ≤ k ∧ k < k + 1 + n ∧
              (layer_stack_.layer k).composition ≠ kCompositionGPUTarget) := by
            rintro ⟨h, _⟩; omega
          have h2 : ¬ (k ≤ k ∧ k < k + (n + 1) ∧
              (layer_stack_.layer k).composition ≠ kCompositionGPUTarget) := by
            rintro ⟨_, _, h⟩; exact h hT
          rw [if_neg h1, if_neg h2]
        · have e : (i + 1 ≤ k ∧ k < i + 1 + n ∧
              (layer_stack_.layer k).composition ≠ kCompositionGPUTarget) ↔
              (i ≤ k ∧ k < i + (n + 1) ∧
                (layer_stack_.layer k).composition ≠ kCompositionGPUTarget) := by
            constructor
            · rintro ⟨a, b, c⟩; exact ⟨by omega, by omega, c⟩
            · rintro ⟨a, b, c⟩; exact ⟨by omega, by omega, c⟩
          simp only [e]
      · rw [if_neg hT, ih]
        by_cases hk : k = i
        · subst hk
          have h1 : ¬ (k + 1 ≤ k ∧ k < k + 1 + n ∧
              (layer_stack_.layer k).composition ≠ kCompositionGPUTarget) := by
            rintro ⟨h, _⟩; omega
          have h2 : k ≤ k ∧ k < k + (n + 1) ∧
              (layer_stack_.layer k).composition ≠ kCompositionGPUTarget :=
            ⟨le_refl k, by omega, hT⟩
          rw [if_neg h1, if_pos h2, Function.update_same]
        · have e : (i + 1 ≤ k ∧ k < i + 1 + n ∧
              (layer_stack_.layer k).composition ≠ kCompositionGPUTarget) ↔
              (i ≤ k ∧ k < i + (n + 1) ∧
                (layer_stack_.layer k).composition ≠ kCompositionGPUTarget) := by
            constructor
            · rintro ⟨a, b, c⟩; exact ⟨by omega, by omega, c⟩
            · rintro ⟨a, b, c⟩; exact ⟨by omega, by omega, c⟩
          simp only [e, Function.update_noteq hk]

/-- The loop of the cache update makes no store past the end of the array when
the indices it visits are all below `kMaxLayerCount`. -/
theorem CacheLayerStackInfo.pastEnd_eq_false (layer_stack_ : LayerStack)
    (kMaxLayerCount n i : Nat) (h : i + n ≤ kMaxLayerCount) :
    CacheLayerStackInfo.pastEnd layer_stack_ kMaxLayerCount n i = false := by
  induction n generalizing i with
  | zero => rfl
  | succ n ih =>
      unfold CacheLayerStackInfo.pastEnd
      simp only []
      have hi : ¬ kMaxLayerCount ≤ i := by omega
      rw [ih (i + 1) (by omega)]
      split_ifs
      · rfl
      · simp [hi]

/-- The loop of the cache update stores past the end of the array as soon as it
visits an index at or past `kMaxLayerCount` whose layer is not the GPU target. -/
theorem CacheLayerStackInfo.pastEnd_eq_true (layer_stack_ : LayerStack)
    (kMaxLayerCount n i k : Nat) (hik : i ≤ k) (hkn : k < i + n)
    (hk : kMaxLayerCount ≤ k)
    (hT : (layer_stack_.layer k).composition ≠ kCompositionGPUTarget) :
    CacheLayerStackInfo.pastEnd layer_stack_ kMaxLayerCount n i = true := by
  induction n generalizing i with
  | zero => omega
  | succ n ih =>
      unfold CacheLayerStackInfo.pastEnd
      simp only []
      by_cases hki : k = i
      · subst hki
        rw [if_neg hT]
        simp [hk]
      · have hrec := ih (i + 1) (by omega) (by omega)
        rw [hrec]
        split_ifs
        · rfl
        · simp

/-- The cache update on a stack whose layer count is within the array: the
cached layer count becomes the stack's layer count; every slot below that count
whose layer is not the GPU target takes the external layer's handle and the
layer's composition; every slot of a GPU-target layer and every slot at or
beyond the layer count is unchanged; no store goes past the end of the array;
and nothing else in the display changes. -/
theorem CacheLayerStackInfo_in_bounds (d : HWCDisplay)
    (content_list : hwc_display_contents_1_t)
    (hbound : d.layer_stack_.layer_count ≤ d.layer_stack_cache_.kMaxLayerCount) :
    (CacheLayerStackInfo d content_list).layer_stack_cache_.layer_count =
        d.layer_stack_.layer_count ∧
      (∀ i, i < d.layer_stack_.layer_count →
        (d.layer_stack_.layer i).composition ≠ kCompositionGPUTarget →
        ((CacheLayerStackInfo d content_list).layer_stack_cache_.layer_cache i).handle =
            (content_list.hwLayer i).handle ∧
          ((CacheLayerStackInfo d content_list).layer_stack_cache_.layer_cache i).composition =
            (d.layer_stack_.layer i).composition) ∧
      (∀ i, (d.layer_stack_.layer_count ≤ i ∨
          (d.layer_stack_.layer i).composition = kCompositionGPUTarget) →
        (CacheLayerStackInfo d content_list).layer_stack_cache_.layer_cache i =
          d.layer_stack_cache_.layer_cache i) ∧
      (CacheLayerStackInfo d content_list).layer_stack_cache_.overrun =
        d.layer_stack_cache_.overrun ∧
      (CacheLayerStackInfo d content_list).layer_stack_cache_.kMaxLayerCount =
        d.layer_stack_cache_.kMaxLayerCount ∧
      (CacheLayerStackInfo d content_list).layer_stack_ = d.layer_stack_ ∧
      (CacheLayerStackInfo d content_list).layer_stack_memory_ = d.layer_stack_memory_ := by
  refine ⟨rfl, ?_, ?_, ?_, rfl, rfl, rfl⟩
  · intro i hi hT
    have h : 0 ≤ i ∧ i < 0 + d.layer_stack_.layer_count ∧
        (d.layer_stack_.layer i).composition ≠ kCompositionGPUTarget :=
      ⟨Nat.zero_le i, by omega, hT⟩
    simp only [CacheLayerStackInfo, CacheLayerStackInfo.loop_apply, if_pos h, and_self]
  · intro i hi
    have h : ¬ (0 ≤ i ∧ i < 0 + d.layer_stack_.layer_count ∧
        (d.layer_stack_.layer i).composition ≠ kCompositionGPUTarget) := by
      rintro ⟨_, h1, h2⟩
      rcases hi with hi | hi
      · omega
      · exact h2 hi
    simp only [CacheLayerStackInfo, CacheLayerStackInfo.loop_apply, if_neg h]
  · show (d.layer_stack_cache_.overrun ||
      CacheLayerStackInfo.pastEnd d.layer_stack_ d.layer_stack_cache_.kMaxLayerCount
        d.layer_stack_.layer_count 0) = d.layer_stack_cache_.overrun
    rw [CacheLayerStackInfo.pastEnd_eq_false _ _ _ _ (by omega), Bool.or_false]

/-- The cache update at a concrete display within the array, the stack of
`frame2` after a successful prepare: slot 0 (an SDE layer) takes handle 11 and
the SDE decision, slot 1 (the GPU target) and slot 2 (beyond the layer count)
are left as they were, and no store goes past the end. -/
theorem CacheLayerStackInfo_in_bounds_frame2 :
    (display2.layer_stack_.layer_count ≤ display2.layer_stack_cache_.kMaxLayerCount ∧
        0 < display2.layer_stack_.layer_count ∧
        (display2.layer_stack_.layer 0).composition ≠ kCompositionGPUTarget) ∧
      (((CacheLayerStackInfo display2 frame2).layer_stack_cache_.layer_cache 0).handle =
          (frame2.hwLayer 0).handle ∧
        ((CacheLayerStackInfo display2 frame2).layer_stack_cache_.layer_cache 0).composition =
          (display2.layer_stack_.layer 0).composition) ∧
      (CacheLayerStackInfo display2 frame2).layer_stack_cache_.layer_cache 1 =
        display2.layer_stack_cache_.layer_cache 1 ∧
      (CacheLayerStackInfo display2 frame2).layer_stack_cache_.layer_cache 2 =
        display2.layer_stack_cache_.layer_cache 2 ∧
      (CacheLayerStackInfo display2 frame2).layer_stack_cache_.overrun =
        display2.layer_stack_cache_.overrun :=
  ⟨⟨by decide, by decide, by decide⟩,
    (CacheLayerStackInfo_in_bounds display2 frame2 (by decide)).2.1 0 (by decide) (by decide),
    (CacheLayerStackInfo_in_bounds display2 frame2 (by decide)).2.2.1 1 (Or.inr (by decide)),
    (CacheLayerStackInfo_in_bounds display2 frame2 (by decide)).2.2.1 2 (Or.inl (by decide)),
    (CacheLayerStackInfo_in_bounds display2 frame2 (by decide)).2.2.2.1⟩

/-- C5: on the frame `frame34` of 34 layers, configured and accepted by the
engine, layer 32 is below the layer count and is not the GPU target, so the
cache update stores its handle and composition to `layer_cache[32]`; the array
has 32 slots, and the store goes past its end.  Before the call no store had
gone past the end; after it one has. -/
theorem CacheLayerStackInfo_stores_past_end :
    configured34.layer_stack_.layer_count = 34 ∧
      configured34.layer_stack_cache_.kMaxLayerCount = 32 ∧
      (configured34.layer_stack_.layer 32).composition ≠ kCompositionGPUTarget ∧
      configured34.layer_stack_cache_.overrun = false ∧
      (CacheLayerStackInfo configured34 frame34).layer_stack_cache_.overrun = true := by
  decide

/-! ## Capacity of the arena -/

/-- The sizing loop adds to its accumulator the rectangles of every layer. -/
theorem AllocateLayerStack.required_eq (env : Env) (l : List hwc_layer_1_t) (acc : Nat) :
    AllocateLayerStack.required env l acc =
      acc + (l.map fun hwc_layer =>
        (hwc_layer.visibleRegionScreen.length + 1) * env.sizeof_LayerRect).sum := by
  induction l generalizing acc with
  | nil => simp [AllocateLayerStack.required]
  | cons a t ih =>
      simp only [AllocateLayerStack.required, List.map_cons, List.sum_cons]
      rw [ih]
      omega

/-- The byte requirement computed by `AllocateLayerStack` is the closed
formula. -/
theorem AllocateLayerStack.required_size_eq (env : Env)
    (content_list : hwc_display_contents_1_t) :
    AllocateLayerStack.required_size env content_list = requirement env content_list := by
  unfold AllocateLayerStack.required_size requirement
  exact AllocateLayerStack.required_eq env _ _

/-- `ROUND_UP` does not go below its argument. -/
theorem le_ROUND_UP (value step : Nat) (hstep : 0 < step) : value ≤ ROUND_UP value step := by
  unfold ROUND_UP
  have h1 := Nat.div_add_mod (value + (step - 1)) step
  have h2 := Nat.mod_lt (value + (step - 1)) hstep
  rw [Nat.mul_comm] at h1
  generalize (value + (step - 1)) / step * step = t at h1 ⊢
  omega

/-- The result of `ROUND_UP` is a multiple of the step. -/
theorem dvd_ROUND_UP (value step : Nat) : step ∣ ROUND_UP value step :=
  Dvd.intro_left _ rfl

/-- No multiple of the step lies between the argument and `ROUND_UP` of it. -/
theorem ROUND_UP_le (value step m : Nat) (hstep : 0 < step) (hm : step ∣ m)
    (hv : value ≤ m) : ROUND_UP value step ≤ m := by
  obtain ⟨c, rfl⟩ := hm
  unfold ROUND_UP
  have h : (value + (step - 1)) / step < c + 1 := by
    apply Nat.div_lt_of_lt_mul
    rw [Nat.mul_add, Nat.mul_one]
    omega
  rw [Nat.mul_comm step c]
  exact Nat.mul_le_mul_right step (by omega)

/-- Carving does not touch the arena descriptor. -/
theorem AllocateLayerStack.assign_memory (env : Env) (stale : Nat → LayerRect) (d : HWCDisplay)
    (content_list : hwc_display_contents_1_t) :
    (AllocateLayerStack.assign env stale d content_list).layer_stack_memory_ =
      d.layer_stack_memory_ := rfl

/-- When the requirement fits the capacity, `AllocateLayerStack` carves the
stack out of the storage it has. -/
theorem AllocateLayerStack_of_fits (env : Env) (new_array : Nat → Nat)
    (stale : Nat → LayerRect) (d : HWCDisplay) (content_list : hwc_display_contents_1_t)
    (h : requirement env content_list ≤ d.layer_stack_memory_.size) :
    AllocateLayerStack env new_array stale d content_list =
      (0, AllocateLayerStack.assign env stale d content_list) := by
  have h1 : ¬ d.layer_stack_memory_.size < AllocateLayerStack.required_size env content_list := by
    rw [AllocateLayerStack.required_size_eq]; omega
  unfold AllocateLayerStack
  simp only [h1, if_false]

/-- When the requirement exceeds the capacity and the allocation succeeds,
`AllocateLayerStack` carves the stack out of the new storage, whose capacity
is the rounded requirement. -/
theorem AllocateLayerStack_of_grows (env : Env) (new_array : Nat → Nat)
    (stale : Nat → LayerRect) (d : HWCDisplay) (content_list : hwc_display_contents_1_t)
    (h : d.layer_stack_memory_.size < requirement env content_list)
    (hnew : new_array (ROUND_UP (requirement env content_list) env.kSizeSteps) ≠ 0) :
    AllocateLayerStack env new_array stale d content_list =
      (0, AllocateLayerStack.assign env stale
        { d with
          layer_stack_memory_ :=
            { raw := new_array (ROUND_UP (requirement env content_list) env.kSizeSteps),
              size := ROUND_UP (requirement env content_list) env.kSizeSteps } }
        content_list) := by
  unfold AllocateLayerStack
  simp only [AllocateLayerStack.required_size_eq, h, if_true, hnew, if_false]

/-- On the branch for a null pointer, taken when the requirement exceeds the
capacity, `AllocateLayerStack` returns `-ENOMEM`; the arena is left without
storage and the stack and the cache are not touched. -/
theorem AllocateLayerStack_of_fails (env : Env) (new_array : Nat → Nat)
    (stale : Nat → LayerRect) (d : HWCDisplay) (content_list : hwc_display_contents_1_t)
    (h : d.layer_stack_memory_.size < requirement env content_list)
    (hnew : new_array (ROUND_UP (requirement env content_list) env.kSizeSteps) = 0) :
    AllocateLayerStack env new_array stale d content_list =
      (-ENOMEM,
        { d with
          layer_stack_memory_ :=
            { raw := 0,
              size := if d.layer_stack_memory_.raw ≠ 0 then 0 else d.layer_stack_memory_.size } }) := by
  unfold AllocateLayerStack
  simp only [AllocateLayerStack.required_size_eq, h, if_true, hnew]

/-- A successful `AllocateLayerStack` leaves a capacity that covers the frame
and is not below the capacity before, whatever the display was. -/
theorem AllocateLayerStack_step_capacity (env : Env) (hstep : 0 < env.kSizeSteps)
    (new_array : Nat → Nat) (stale : Nat → LayerRect) (d : HWCDisplay)
    (content_list : hwc_display_contents_1_t)
    (hs : (AllocateLayerStack env new_array stale d content_list).1 = 0) :
    requirement env content_list ≤
        (AllocateLayerStack env new_array stale d content_list).2.layer_stack_memory_.size ∧
      d.layer_stack_memory_.size ≤
        (AllocateLayerStack env new_array stale d content_list).2.layer_stack_memory_.size := by
  by_cases hfit : requirement env content_list ≤ d.layer_stack_memory_.size
  · rw [AllocateLayerStack_of_fits env new_array stale d content_list hfit]
    exact ⟨hfit, le_refl _⟩
  · have hlt : d.layer_stack_memory_.size < requirement env content_list := by omega
    by_cases hnew : new_array (ROUND_UP (requirement env content_list) env.kSizeSteps) = 0
    · rw [AllocateLayerStack_of_fails env new_array stale d content_list hlt hnew] at hs
      simp [ENOMEM] at hs
    · rw [AllocateLayerStack_of_grows env new_array stale d content_list hlt hnew]
      have h := le_ROUND_UP (requirement env content_list) env.kSizeSteps hstep
      simp only [AllocateLayerStack.assign_memory]
      exact ⟨h, by omega⟩

/-- C6: along every sequence of `AllocateLayerStack` calls from the empty
arena, a call that succeeds leaves a capacity at least the frame's exact byte
requirement, `N * (sizeof(Layer) + sizeof(LayerBuffer))` plus the sum of
`(numRects + 1) * sizeof(LayerRect)` over the layers, and not smaller than the
capacity before the call. -/
theorem AllocateLayerStack_capacity_invariant (env : Env) (hstep : 0 < env.kSizeSteps)
    (calls : List AllocCall) (call : AllocCall)
    (hs : (AllocateLayerStack env call.new_array call.stale
      (AllocateLayerStack.run env HWCDisplay.init calls) call.content_list).1 = 0) :
    call.content_list.numHwLayers * (env.sizeof_Layer + env.sizeof_LayerBuffer) +
          (call.content_list.hwLayers.map fun hwc_layer =>
            (hwc_layer.visibleRegionScreen.length + 1) * env.sizeof_LayerRect).sum ≤
        (AllocateLayerStack env call.new_array call.stale
          (AllocateLayerStack.run env HWCDisplay.init calls)
          call.content_list).2.layer_stack_memory_.size ∧
      (AllocateLayerStack.run env HWCDisplay.init calls).layer_stack_memory_.size ≤
        (AllocateLayerStack env call.new_array call.stale
          (AllocateLayerStack.run env HWCDisplay.init calls)
          call.content_list).2.layer_stack_memory_.size :=
  AllocateLayerStack_step_capacity env hstep call.new_array call.stale _ call.content_list hs

/-- C6 at a concrete sequence: `frame1`, then `frame2`. -/
theorem AllocateLayerStack_capacity_invariant_witness :
    (0 < env0.kSizeSteps ∧
      (AllocateLayerStack env0 callFrame2.new_array callFrame2.stale
        (AllocateLayerStack.run env0 HWCDisplay.init [callFrame1])
        callFrame2.content_list).1 = 0) ∧
    (callFrame2.content_list.numHwLayers * (env0.sizeof_Layer + env0.sizeof_LayerBuffer) +
          (callFrame2.content_list.hwLayers.map fun hwc_layer =>
            (hwc_layer.visibleRegionScreen.length + 1) * env0.sizeof_LayerRect).sum ≤
        (AllocateLayerStack env0 callFrame2.new_array callFrame2.stale
          (AllocateLayerStack.run env0 HWCDisplay.init [callFrame1])
          callFrame2.content_list).2.layer_stack_memory_.size ∧
      (AllocateLayerStack.run env0 HWCDisplay.init [callFrame1]).layer_stack_memory_.size ≤
        (AllocateLayerStack env0 callFrame2.new_array callFrame2.stale
          (AllocateLayerStack.run env0 HWCDisplay.init [callFrame1])
          callFrame2.content_list).2.layer_stack_memory_.size) :=
  ⟨⟨by decide, by decide⟩,
    AllocateLayerStack_capacity_invariant env0 (by decide) [callFrame1] callFrame2 (by decide)⟩

/-- C7: if the frame's byte requirement is at most the capacity,
`AllocateLayerStack` succeeds and leaves the arena's storage address and
capacity as they were; if the requirement exceeds the capacity and the
allocation succeeds, the call succeeds, the storage is the new allocation and
the new capacity is the smallest multiple of `kSizeSteps` that is at least the
requirement. -/
theorem AllocateLayerStack_reuse_or_round_up (env : Env) (new_array : Nat → Nat)
    (stale : Nat → LayerRect) (d : HWCDisplay) (content_list : hwc_display_contents_1_t) :
    (requirement env content_list ≤ d.layer_stack_memory_.size →
      (AllocateLayerStack env new_array stale d content_list).1 = 0 ∧
        (AllocateLayerStack env new_array stale d content_list).2.layer_stack_memory_ =
          d.layer_stack_memory_) ∧
    (0 < env.kSizeSteps → d.layer_stack_memory_.size < requirement env content_list →
      new_array (ROUND_UP (requirement env content_list) env.kSizeSteps) ≠ 0 →
      (AllocateLayerStack env new_array stale d content_list).1 = 0 ∧
        (AllocateLayerStack env new_array stale d content_list).2.layer_stack_memory_.raw =
          new_array (ROUND_UP (requirement env content_list) env.kSizeSteps) ∧
        env.kSizeSteps ∣
          (AllocateLayerStack env new_array stale d content_list).2.layer_stack_memory_.size ∧
        requirement env content_list ≤
          (AllocateLayerStack env new_array stale d content_list).2.layer_stack_memory_.size ∧
        ∀ m, env.kSizeSteps ∣ m → requirement env content_list ≤ m →
          (AllocateLayerStack env new_array stale d content_list).2.layer_stack_memory_.size
            ≤ m) := by
  constructor
  · intro hfit
    rw [AllocateLayerStack_of_fits env new_array stale d content_list hfit]
    exact ⟨rfl, rfl⟩
  · intro hstep hlt hnew
    rw [AllocateLayerStack_of_grows env new_array stale d content_list hlt hnew]
    exact ⟨rfl, rfl, dvd_ROUND_UP _ _, le_ROUND_UP _ _ hstep,
      fun m hm hv => ROUND_UP_le _ _ m hstep hm hv⟩

/-- C7 at concrete frames: `frame2` fits the arena of `allocated2`, and it
exceeds the empty arena, where the new capacity is a multiple of 1024. -/
theorem AllocateLayerStack_reuse_or_round_up_witness :
    (requirement env0 frame2 ≤ allocated2.layer_stack_memory_.size ∧
      (AllocateLayerStack env0 (fun _ => 0) (fun _ => sentinel) allocated2 frame2).1 = 0 ∧
      (AllocateLayerStack env0 (fun _ => 0) (fun _ => sentinel) allocated2
        frame2).2.layer_stack_memory_ = allocated2.layer_stack_memory_) ∧
    ((0 < env0.kSizeSteps ∧
        HWCDisplay.init.layer_stack_memory_.size < requirement env0 frame2 ∧
        (fun _ : Nat => 4096) (ROUND_UP (requirement env0 frame2) env0.kSizeSteps) ≠ 0) ∧
      env0.kSizeSteps ∣
        (AllocateLayerStack env0 (fun _ => 4096) (fun _ => sentinel) HWCDisplay.init
          frame2).2.layer_stack_memory_.size) :=
  ⟨⟨by decide,
      (AllocateLayerStack_reuse_or_round_up env0 (fun _ => 0) (fun _ => sentinel) allocated2
        frame2).1 (by decide)⟩,
    ⟨by decide, by decide, by decide⟩,
    ((AllocateLayerStack_reuse_or_round_up env0 (fun _ => 4096) (fun _ => sentinel)
      HWCDisplay.init frame2).2 (by decide) (by decide) (by decide)).2.2.1⟩

/-! ## Degenerate frames -/

/-- C9: for a layer list with 0 or 1 layers, `PrepareLayerStack` returns 0
without an engine call and leaves the display (cache, stack, arena) and the
external list as they were. -/
theorem PrepareLayerStack_degenerate (display_intf_ : DisplayInterface) (d : HWCDisplay)
    (content_list : hwc_display_contents_1_t) (h : content_list.numHwLayers ≤ 1) :
    (PrepareLayerStack display_intf_ d content_list).status = 0 ∧
      (PrepareLayerStack display_intf_ d content_list).events = [] ∧
      (PrepareLayerStack display_intf_ d content_list).display = d ∧
      (PrepareLayerStack display_intf_ d content_list).content_list = content_list := by
  unfold PrepareLayerStack
  simp only [h, if_true, and_self]

/-- C9 at a concrete frame: the one-layer frame `frame1` on the display left by
`frame2`, with an engine that would reject the stack. -/
theorem PrepareLayerStack_degenerate_witness :
    frame1.numHwLayers ≤ 1 ∧
      (PrepareLayerStack engineFail display2 frame1).status = 0 ∧
      (PrepareLayerStack engineFail display2 frame1).events = [] ∧
      (PrepareLayerStack engineFail display2 frame1).display = display2 ∧
      (PrepareLayerStack engineFail display2 frame1).content_list = frame1 :=
  ⟨by decide, PrepareLayerStack_degenerate engineFail display2 frame1 (by decide)⟩

/-- `AllocateLayerStack` never touches the composition cache. -/
theorem AllocateLayerStack_cache (env : Env) (new_array : Nat → Nat)
    (stale : Nat → LayerRect) (d : HWCDisplay) (content_list : hwc_display_contents_1_t) :
    (AllocateLayerStack env new_array stale d content_list).2.layer_stack_cache_ =
      d.layer_stack_cache_ := by
  unfold AllocateLayerStack
  simp only []
  split_ifs <;> rfl

/-- After a successful `AllocateLayerStack` the stack is the freshly carved one:
default flags, the layer count of the frame, and the layers carved from the
arena's storage behind the layer array. -/
theorem AllocateLayerStack_stack (env : Env) (new_array : Nat → Nat)
    (stale : Nat → LayerRect) (d : HWCDisplay) (content_list : hwc_display_contents_1_t)
    (hs : (AllocateLayerStack env new_array stale d content_list).1 = 0) :
    (AllocateLayerStack env new_array stale d content_list).2.layer_stack_ =
      { LayerStack.init with
        layers_addr :=
          (AllocateLayerStack env new_array stale d content_list).2.layer_stack_memory_.raw
        layer_count := content_list.numHwLayers
        layers := AllocateLayerStack.carve env stale content_list.hwLayers
          ((AllocateLayerStack env new_array stale d content_list).2.layer_stack_memory_.raw +
            content_list.numHwLayers * env.sizeof_Layer) } := by
  by_cases hfit : requirement env content_list ≤ d.layer_stack_memory_.size
  · rw [AllocateLayerStack_of_fits env new_array stale d content_list hfit]
    rfl
  · have hlt : d.layer_stack_memory_.size < requirement env content_list := by omega
    by_cases hnew : new_array (ROUND_UP (requirement env content_list) env.kSizeSteps) = 0
    · rw [AllocateLayerStack_of_fails env new_array stale d content_list hlt hnew] at hs
      simp [ENOMEM] at hs
    · rw [AllocateLayerStack_of_grows env new_array stale d content_list hlt hnew]
      rfl

/-- C8 as stated fails: on a fresh display the one-layer frame `frame1` makes
`HWCDisplayExternal::Prepare` allocate the arena and carve one layer, so the
storage, the capacity, the layer array and the layer count all change; and on
the display left by `frame2` the empty frame `frame0` resets the layer array
and the layer count. -/
theorem HWCDisplayExternal_Prepare_carves_small_frames :
    (frame1.numHwLayers ≤ 1 ∧
      (HWCDisplayExternal.Prepare env0 (fun _ => 4096) (fun _ => LayerRect.init) engineOk
        HWCDisplay.init frame1).display.layer_stack_memory_.raw ≠
          HWCDisplay.init.layer_stack_memory_.raw ∧
      (HWCDisplayExternal.Prepare env0 (fun _ => 4096) (fun _ => LayerRect.init) engineOk
        HWCDisplay.init frame1).display.layer_stack_memory_.size ≠
          HWCDisplay.init.layer_stack_memory_.size ∧
      (HWCDisplayExternal.Prepare env0 (fun _ => 4096) (fun _ => LayerRect.init) engineOk
        HWCDisplay.init frame1).display.layer_stack_.layers ≠
          HWCDisplay.init.layer_stack_.layers ∧
      (HWCDisplayExternal.Prepare env0 (fun _ => 4096) (fun _ => LayerRect.init) engineOk
        HWCDisplay.init frame1).display.layer_stack_.layer_count ≠
          HWCDisplay.init.layer_stack_.layer_count) ∧
    (frame0.numHwLayers ≤ 1 ∧
      (HWCDisplayExternal.Prepare env0 (fun _ => 4096) (fun _ => LayerRect.init) engineOk
        display2 frame0).display.layer_stack_.layers ≠ display2.layer_stack_.layers ∧
      (HWCDisplayExternal.Prepare env0 (fun _ => 4096) (fun _ => LayerRect.init) engineOk
        display2 frame0).display.layer_stack_.layer_count ≠
          display2.layer_stack_.layer_count) := by
  decide

/-- C8, amended: for a layer list with 0 or 1 layers, `HWCDisplayExternal::Prepare`
is `AllocateLayerStack` and nothing more.  It makes no engine call and leaves
the external list and the composition cache as they were; its status and its
arena are those of `AllocateLayerStack`.  The arena's storage and capacity are
unchanged when the requirement is at most the capacity, and the capacity grows
when the requirement exceeds it and the allocation succeeds.  On success the
stack is carved anew: its layer count is the length of the list, its layers
are the freshly carved ones, and its retire fence is `-1`. -/
theorem HWCDisplayExternal_Prepare_degenerate (env : Env) (new_array : Nat → Nat)
    (stale : Nat → LayerRect) (display_intf_ : DisplayInterface) (d : HWCDisplay)
    (content_list : hwc_display_contents_1_t) (h : content_list.numHwLayers ≤ 1) :
    (HWCDisplayExternal.Prepare env new_array stale display_intf_ d content_list).events = [] ∧
      (HWCDisplayExternal.Prepare env new_array stale display_intf_ d
        content_list).content_list = content_list ∧
      (HWCDisplayExternal.Prepare env new_array stale display_intf_ d
        content_list).display.layer_stack_cache_ = d.layer_stack_cache_ ∧
      (HWCDisplayExternal.Prepare env new_array stale display_intf_ d content_list).status =
        (AllocateLayerStack env new_array stale d content_list).1 ∧
      (HWCDisplayExternal.Prepare env new_array stale display_intf_ d
        content_list).display.layer_stack_memory_ =
        (AllocateLayerStack env new_array stale d content_list).2.layer_stack_memory_ ∧
      (requirement env content_list ≤ d.layer_stack_memory_.size →
        (HWCDisplayExternal.Prepare env new_array stale display_intf_ d
          content_list).display.layer_stack_memory_ = d.layer_stack_memory_) ∧
      (0 < env.kSizeSteps → d.layer_stack_memory_.size < requirement env content_list →
        (HWCDisplayExternal.Prepare env new_array stale display_intf_ d
          content_list).status = 0 →
        d.layer_stack_memory_.size <
          (HWCDisplayExternal.Prepare env new_array stale display_intf_ d
            content_list).display.layer_stack_memory_.size) ∧
      ((HWCDisplayExternal.Prepare env new_array stale display_intf_ d
          content_list).status = 0 →
        (HWCDisplayExternal.Prepare env new_array stale display_intf_ d
          content_list).display.layer_stack_ =
          { LayerStack.init with
            layers_addr :=
              (AllocateLayerStack env new_array stale d content_list).2.layer_stack_memory_.raw
            layer_count := content_list.numHwLayers
            retire_fence_fd := -1
            layers := AllocateLayerStack.carve env stale content_list.hwLayers
              ((AllocateLayerStack env new_array stale d
                  content_list).2.layer_stack_memory_.raw +
                content_list.numHwLayers * env.sizeof_Layer) }) := by
  have hp : ∀ d1 : HWCDisplay, PrepareLayerStack display_intf_ d1 content_list =
      { status := 0, display := d1, content_list := content_list, events := [] } := by
    intro d1
    unfold PrepareLayerStack
    simp only [h, if_true]
  have hcache := AllocateLayerStack_cache env new_array stale d content_list
  by_cases ha : (AllocateLayerStack env new_array stale d content_list).1 = 0
  · have hstack := AllocateLayerStack_stack env new_array stale d content_list ha
    have hcap := AllocateLayerStack_step_capacity env
    have e : HWCDisplayExternal.Prepare env new_array stale display_intf_ d content_list =
        { status := 0,
          display :=
            { (AllocateLayerStack env new_array stale d content_list).2 with
              layer_stack_ :=
                { (AllocateLayerStack env new_array stale d content_list).2.layer_stack_ with
                  retire_fence_fd := -1 } },
          content_list := content_list, events := [] } := by
      unfold HWCDisplayExternal.Prepare
      simp only [ha, ne_eq, not_true_eq_false, if_false, hp]
    rw [e]
    refine ⟨rfl, rfl, hcache, ha.symm, rfl, ?_, ?_, ?_⟩
    · intro hfit
      rw [AllocateLayerStack_of_fits env new_array stale d content_list hfit]
      rfl
    · intro hstep hlt _
      have hreq := (hcap hstep new_array stale d content_list ha).1
      show d.layer_stack_memory_.size <
        (AllocateLayerStack env new_array stale d content_list).2.layer_stack_memory_.size
      omega
    · intro _
      show ({ (AllocateLayerStack env new_array stale d content_list).2.layer_stack_ with
        retire_fence_fd := -1 } : LayerStack) = _
      rw [hstack]
  · have e : HWCDisplayExternal.Prepare env new_array stale display_intf_ d content_list =
        { status := (AllocateLayerStack env new_array stale d content_list).1,
          display := (AllocateLayerStack env new_array stale d content_list).2,
          content_list := content_list, events := [] } := by
      unfold HWCDisplayExternal.Prepare
      simp only [ha, ne_eq, not_false_eq_true, if_true]
    rw [e]
    refine ⟨rfl, rfl, hcache, rfl, rfl, ?_, ?_, ?_⟩
    · intro hfit
      rw [AllocateLayerStack_of_fits env new_array stale d content_list hfit]
      rfl
    · intro _ _ hs
      exact absurd hs ha
    · intro hs
      exact absurd hs ha

/-- C8, amended, at concrete frames: `frame1` on the display left by `frame2`
fits the arena, and `frame1` on a fresh display makes the arena grow. -/
theorem HWCDisplayExternal_Prepare_degenerate_witness :
    (frame1.numHwLayers ≤ 1 ∧ requirement env0 frame1 ≤ display2.layer_stack_memory_.size ∧
      (HWCDisplayExternal.Prepare env0 (fun _ => 0) (fun _ => sentinel) engineFail display2
        frame1).display.layer_stack_memory_ = display2.layer_stack_memory_) ∧
    ((0 < env0.kSizeSteps ∧
        HWCDisplay.init.layer_stack_memory_.size < requirement env0 frame1 ∧
        (HWCDisplayExternal.Prepare env0 (fun _ => 4096) (fun _ => sentinel) engineFail
          HWCDisplay.init frame1).status = 0) ∧
      HWCDisplay.init.layer_stack_memory_.size <
        (HWCDisplayExternal.Prepare env0 (fun _ => 4096) (fun _ => sentinel) engineFail
          HWCDisplay.init frame1).display.layer_stack_memory_.size) :=
  ⟨⟨by decide, by decide,
      (HWCDisplayExternal_Prepare_degenerate env0 (fun _ => 0) (fun _ => sentinel) engineFail
        display2 frame1 (by decide)).2.2.2.2.2.1 (by decide)⟩,
    ⟨by decide, by decide, by decide⟩,
    (HWCDisplayExternal_Prepare_degenerate env0 (fun _ => 4096) (fun _ => sentinel) engineFail
      HWCDisplay.init frame1 (by decide)).2.2.2.2.2.2.1 (by decide) (by decide) (by decide)⟩

/-! ## The status of `PrepareLayerStack` -/

/-- The configuration loop fails exactly on a frame with a bad format. -/
theorem PrepareLayerStack.configure_status_ne_zero_iff (d : HWCDisplay)
    (content_list : hwc_display_contents_1_t) :
    (PrepareLayerStack.configure d.layer_stack_cache_ content_list.hwLayers 0
        d.layer_stack_).1 ≠ 0 ↔ HasBadFormat content_list := by
  rw [ne_eq, PrepareLayerStack.configure_status_eq_zero_iff]
  unfold HasBadFormat
  constructor
  · intro h
    by_contra hn
    apply h
    intro l hl h0
    by_contra hr
    exact hn ⟨l, hl, h0, hr⟩
  · rintro ⟨l, hl, h0, hr⟩ h
    exact hr (h l hl h0)

/-- C10: on a layer list of two or more layers, `PrepareLayerStack` returns
`-EINVAL` if and only if some layer with a non-null handle has a pixel format
outside the seven recognised ones, or every such format is recognised and the
engine's prepare pass returns a non-success status; otherwise it returns 0.
With a bad format the engine is not called; without one it is called once. -/
theorem PrepareLayerStack_returns_EINVAL_iff (display_intf_ : DisplayInterface) (d : HWCDisplay)
    (content_list : hwc_display_contents_1_t) (h2 : 2 ≤ content_list.numHwLayers) :
    ((PrepareLayerStack display_intf_ d content_list).status = -EINVAL ↔
        HasBadFormat content_list ∨
          (¬ HasBadFormat content_list ∧
            (display_intf_.Prepare (PrepareLayerStack.engineInput d content_list)).1 ≠
              kErrorNone)) ∧
      ((PrepareLayerStack display_intf_ d content_list).status ≠ -EINVAL →
        (PrepareLayerStack display_intf_ d content_list).status = 0) ∧
      (HasBadFormat content_list →
        (PrepareLayerStack display_intf_ d content_list).events = []) ∧
      (¬ HasBadFormat content_list →
        (PrepareLayerStack display_intf_ d content_list).events = [Event.enginePrepare]) := by
  have hiff := PrepareLayerStack.configure_status_ne_zero_iff d content_list
  by_cases hc : (PrepareLayerStack.configure d.layer_stack_cache_ content_list.hwLayers 0
      d.layer_stack_).1 = 0
  · have hgood : ¬ HasBadFormat content_list := fun hb => hiff.2 hb hc
    by_cases he : (display_intf_.Prepare (PrepareLayerStack.engineInput d content_list)).1 =
        kErrorNone
    · rw [PrepareLayerStack_of_success display_intf_ d content_list h2 hc he]
      refine ⟨⟨fun h => ?_, fun h => ?_⟩, fun _ => rfl, fun hb => absurd hb hgood, fun _ => rfl⟩
      · simp [EINVAL] at h
      · rcases h with h | ⟨_, h⟩
        · exact absurd h hgood
        · exact absurd he h
    · rw [PrepareLayerStack_of_engine_error display_intf_ d content_list h2 hc he]
      exact ⟨⟨fun _ => Or.inr ⟨hgood, he⟩, fun _ => rfl⟩, fun h => absurd rfl h,
        fun hb => absurd hb hgood, fun _ => rfl⟩
  · have hbad : HasBadFormat content_list := hiff.1 hc
    have hst : (PrepareLayerStack.configure d.layer_stack_cache_ content_list.hwLayers 0
        d.layer_stack_).1 = -EINVAL :=
      (PrepareLayerStack.configure_status _ _ _ _).resolve_left hc
    rw [PrepareLayerStack_of_configure_error display_intf_ d content_list h2 hc]
    exact ⟨⟨fun _ => Or.inl hbad, fun _ => hst⟩, fun h => absurd hst h, fun _ => rfl,
      fun hg => absurd hbad hg⟩

/-- C10 at concrete frames: `frameBadFormat` has format 77 on a layer with a
handle and fails before the engine is called; `frame2` with a rejecting engine
fails after the call. -/
theorem PrepareLayerStack_returns_EINVAL_iff_witness :
    (2 ≤ frameBadFormat.numHwLayers ∧ HasBadFormat frameBadFormat ∧
      (PrepareLayerStack engineOk allocated2 frameBadFormat).status = -EINVAL ∧
      (PrepareLayerStack engineOk allocated2 frameBadFormat).events = []) ∧
    (2 ≤ frame2.numHwLayers ∧ ¬ HasBadFormat frame2 ∧
      (PrepareLayerStack engineFail allocated2 frame2).status = -EINVAL ∧
      (PrepareLayerStack engineFail allocated2 frame2).events = [Event.enginePrepare]) :=
  have hbad : HasBadFormat frameBadFormat :=
    ⟨frameBadFormat.hwLayer 0, by decide, by decide, by decide⟩
  have hgood : ¬ HasBadFormat frame2 := by
    rintro ⟨l, hl, h0, hr⟩
    have hl2 : l = frame2.hwLayer 0 ∨ l = frame2.hwLayer 1 := by
      simpa [frame2, mkFrame, hwc_display_contents_1_t.hwLayer] using hl
    rcases hl2 with rfl | rfl
    · exact hr (by decide)
    · exact hr (by decide)
  ⟨⟨by decide, hbad,
      (PrepareLayerStack_returns_EINVAL_iff engineOk allocated2 frameBadFormat (by decide)).1.2
        (Or.inl hbad),
      (PrepareLayerStack_returns_EINVAL_iff engineOk allocated2 frameBadFormat (by decide)).2.2.1 hbad⟩,
    ⟨by decide, hgood,
      (PrepareLayerStack_returns_EINVAL_iff engineFail allocated2 frame2 (by decide)).1.2
        (Or.inr ⟨hgood, by decide⟩),
      (PrepareLayerStack_returns_EINVAL_iff engineFail allocated2 frame2 (by decide)).2.2.2 hgood⟩⟩

/-! ## The commit path -/

/-- The release loop changes external layer `j` in its release fence only:
it becomes the fence in the buffer descriptor of layer `k + j` when that layer
is SDE or GPU target, and stays as it was otherwise. -/
theorem CommitLayerStack.release_getD (layer_stack_ : LayerStack) (l : List hwc_layer_1_t)
    (k j : Nat) (hj : j < l.length) :
    (CommitLayerStack.release layer_stack_ l k).1.getD j hwc_layer_1_t.zero =
      if (layer_stack_.layer (k + j)).composition = kCompositionSDE ∨
          (layer_stack_.layer (k + j)).composition = kCompositionGPUTarget then
        { l.getD j hwc_layer_1_t.zero with
          releaseFenceFd := (layer_stack_.layer (k + j)).input_buffer.release_fence_fd }
      else l.getD j hwc_layer_1_t.zero := by
  induction l generalizing k j with
  | nil => simp at hj
  | cons a t ih =>
      cases j with
      | zero => simp [CommitLayerStack.release]
      | succ j =>
          have hj2 : j < t.length := by simpa using hj
          have e : k + (j + 1) = (k + 1) + j := by omega
          simp only [CommitLayerStack.release, List.getD_cons_succ]
          rw [ih (k + 1) j hj2, e]

/-- On a frame of two or more layers, the outcome of `CommitLayerStack` when
the engine accepts the stack. -/
theorem CommitLayerStack_of_success (display_intf_ : DisplayInterface) (d : HWCDisplay)
    (content_list : hwc_display_contents_1_t) (h2 : 2 ≤ content_list.numHwLayers)
    (he : (display_intf_.Commit
      (CommitLayerStack.attach content_list.hwLayers 0 d.layer_stack_)).1 = kErrorNone) :
    CommitLayerStack display_intf_ d content_list =
      { status := 0,
        display :=
          { d with
            layer_stack_ := (display_intf_.Commit
              (CommitLayerStack.attach content_list.hwLayers 0 d.layer_stack_)).2 },
        content_list :=
          { content_list with
            hwLayers := (CommitLayerStack.release
              (display_intf_.Commit
                (CommitLayerStack.attach content_list.hwLayers 0 d.layer_stack_)).2
              content_list.hwLayers 0).1 },
        events := Event.engineCommit ::
          (CommitLayerStack.release
            (display_intf_.Commit
              (CommitLayerStack.attach content_list.hwLayers 0 d.layer_stack_)).2
            content_list.hwLayers 0).2 } := by
  have h1 : ¬ content_list.numHwLayers ≤ 1 := by omega
  unfold CommitLayerStack
  simp only [h1, if_false, he, ne_eq, not_true_eq_false]

/-- On a frame of two or more layers, the outcome of `CommitLayerStack` when
the engine rejects the stack. -/
theorem CommitLayerStack_of_engine_error (display_intf_ : DisplayInterface) (d : HWCDisplay)
    (content_list : hwc_display_contents_1_t) (h2 : 2 ≤ content_list.numHwLayers)
    (he : (display_intf_.Commit
      (CommitLayerStack.attach content_list.hwLayers 0 d.layer_stack_)).1 ≠ kErrorNone) :
    CommitLayerStack display_intf_ d content_list =
      { status := -EINVAL,
        display :=
          { d with
            layer_stack_ := (display_intf_.Commit
              (CommitLayerStack.attach content_list.hwLayers 0 d.layer_stack_)).2 },
        content_list := content_list, events := [Event.engineCommit] } := by
  have h1 : ¬ content_list.numHwLayers ≤ 1 := by omega
  unfold CommitLayerStack
  simp only [h1, if_false, ne_eq, he, not_false_eq_true, if_true]

/-- C14: when `CommitLayerStack` succeeds on a frame of two or more layers,
the release fence of external layer `i` is the one the engine left in the
buffer descriptor of layer `i` if that layer is SDE or GPU target, and is
unchanged by the call otherwise. -/
theorem CommitLayerStack_release_fences (display_intf_ : DisplayInterface) (d : HWCDisplay)
    (content_list : hwc_display_contents_1_t) (h2 : 2 ≤ content_list.numHwLayers)
    (hs : (CommitLayerStack display_intf_ d content_list).status = 0)
    (i : Nat) (hi : i < content_list.numHwLayers) :
    ((CommitLayerStack display_intf_ d content_list).content_list.hwLayer i).releaseFenceFd =
      (let engine_stack := (display_intf_.Commit
        (CommitLayerStack.attach content_list.hwLayers 0 d.layer_stack_)).2
      if (engine_stack.layer i).composition = kCompositionSDE ∨
          (engine_stack.layer i).composition = kCompositionGPUTarget then
        (engine_stack.layer i).input_buffer.release_fence_fd
      else (content_list.hwLayer i).releaseFenceFd) := by
  have he : (display_intf_.Commit
      (CommitLayerStack.attach content_list.hwLayers 0 d.layer_stack_)).1 = kErrorNone := by
    by_contra he
    rw [CommitLayerStack_of_engine_error display_intf_ d content_list h2 he] at hs
    simp [EINVAL] at hs
  rw [CommitLayerStack_of_success display_intf_ d content_list h2 he]
  simp only [hwc_display_contents_1_t.hwLayer]
  rw [CommitLayerStack.release_getD _ _ _ _ hi]
  simp only [Nat.zero_add]
  split_ifs <;> rfl

/-- C14 at a concrete frame: `frame2` after a successful prepare, committed with
an accepting engine, layers 0 and 1. -/
theorem CommitLayerStack_release_fences_witness :
    (2 ≤ frame2.numHwLayers ∧ (CommitLayerStack engineOk display2 frame2).status = 0) ∧
      ((CommitLayerStack engineOk display2 frame2).content_list.hwLayer 0).releaseFenceFd =
        (let engine_stack := (engineOk.Commit
          (CommitLayerStack.attach frame2.hwLayers 0 display2.layer_stack_)).2
        if (engine_stack.layer 0).composition = kCompositionSDE ∨
            (engine_stack.layer 0).composition = kCompositionGPUTarget then
          (engine_stack.layer 0).input_buffer.release_fence_fd
        else (frame2.hwLayer 0).releaseFenceFd) :=
  ⟨⟨by decide, by decide⟩,
    CommitLayerStack_release_fences engineOk display2 frame2 (by decide) (by decide) 0
      (by decide)⟩

/-- C15: on a frame of 0 or 1 layers `CommitLayerStack` returns 0 without an
engine call and leaves the display and the external list as they were; with 0
layers it closes nothing, with 1 layer it closes that layer's acquire fence
once if the descriptor is non-negative and nothing if it is negative. -/
theorem CommitLayerStack_degenerate (display_intf_ : DisplayInterface) (d : HWCDisplay)
    (content_list : hwc_display_contents_1_t) (h : content_list.numHwLayers ≤ 1) :
    (CommitLayerStack display_intf_ d content_list).status = 0 ∧
      Event.engineCommit ∉ (CommitLayerStack display_intf_ d content_list).events ∧
      (CommitLayerStack display_intf_ d content_list).display = d ∧
      (CommitLayerStack display_intf_ d content_list).content_list = content_list ∧
      (content_list.numHwLayers = 0 →
        (CommitLayerStack display_intf_ d content_list).events = []) ∧
      (content_list.numHwLayers = 1 → 0 ≤ (content_list.hwLayer 0).acquireFenceFd →
        (CommitLayerStack display_intf_ d content_list).events =
          [Event.close (content_list.hwLayer 0).acquireFenceFd]) ∧
      (content_list.numHwLayers = 1 → (content_list.hwLayer 0).acquireFenceFd < 0 →
        (CommitLayerStack display_intf_ d content_list).events = []) := by
  by_cases h0 : content_list.numHwLayers = 0
  · have e : CommitLayerStack display_intf_ d content_list =
        { status := 0, display := d, content_list := content_list, events := [] } := by
      unfold CommitLayerStack
      simp only []
      rw [if_pos h, if_pos h0]
    rw [e]
    exact ⟨rfl, List.not_mem_nil _, rfl, rfl, fun _ => rfl, fun h1 => by omega,
      fun _ _ => rfl⟩
  · have e : CommitLayerStack display_intf_ d content_list =
        { status := 0, display := d, content_list := content_list,
          events :=
            if (content_list.hwLayer 0).acquireFenceFd ≥ 0 then
              [Event.close (content_list.hwLayer 0).acquireFenceFd]
            else [] } := by
      unfold CommitLayerStack
      simp only []
      rw [if_pos h, if_neg h0]
    rw [e]
    refine ⟨rfl, ?_, rfl, rfl, fun h1 => absurd h1 h0, fun _ hp => ?_, fun _ hn => ?_⟩
    · show Event.engineCommit ∉
        (if (content_list.hwLayer 0).acquireFenceFd ≥ 0 then
          [Event.close (content_list.hwLayer 0).acquireFenceFd]
        else [])
      split_ifs <;> simp
    · show (if (content_list.hwLayer 0).acquireFenceFd ≥ 0 then
          [Event.close (content_list.hwLayer 0).acquireFenceFd]
        else []) = _
      rw [if_pos hp]
    · show (if (content_list.hwLayer 0).acquireFenceFd ≥ 0 then
          [Event.close (content_list.hwLayer 0).acquireFenceFd]
        else []) = _
      rw [if_neg (by omega)]

/-- C15 at concrete frames: `frame1`, whose acquire fence is 9, and the empty
frame, with an engine that would reject any stack. -/
theorem CommitLayerStack_degenerate_witness :
    (frame1.numHwLayers = 1 ∧ 0 ≤ (frame1.hwLayer 0).acquireFenceFd ∧
      (CommitLayerStack engineFail display2 frame1).events = [Event.close 9]) ∧
    (frame0.numHwLayers = 0 ∧ (CommitLayerStack engineFail display2 frame0).events = []) :=
  ⟨⟨by decide, by decide,
      (CommitLayerStack_degenerate engineFail display2 frame1 (by decide)).2.2.2.2.2.1
        (by decide) (by decide)⟩,
    ⟨by decide,
      (CommitLayerStack_degenerate engineFail display2 frame0 (by decide)).2.2.2.2.1
        (by decide)⟩⟩

/-! ## Allocation failure -/

/-- The status of `PrepareLayerStack` is `0` or `-EINVAL`. -/
theorem PrepareLayerStack_status_cases (display_intf_ : DisplayInterface) (d : HWCDisplay)
    (content_list : hwc_display_contents_1_t) :
    (PrepareLayerStack display_intf_ d content_list).status = 0 ∨
      (PrepareLayerStack display_intf_ d content_list).status = -EINVAL := by
  by_cases h1 : content_list.numHwLayers ≤ 1
  · left
    unfold PrepareLayerStack
    simp only []
    rw [if_pos h1]
  · have h2 : 2 ≤ content_list.numHwLayers := by omega
    by_cases hc : (PrepareLayerStack.configure d.layer_stack_cache_ content_list.hwLayers 0
        d.layer_stack_).1 = 0
    · by_cases he : (display_intf_.Prepare
          (PrepareLayerStack.engineInput d content_list)).1 = kErrorNone
      · left
        rw [PrepareLayerStack_of_success display_intf_ d content_list h2 hc he]
      · right
        rw [PrepareLayerStack_of_engine_error display_intf_ d content_list h2 hc he]
    · right
      rw [PrepareLayerStack_of_configure_error display_intf_ d content_list h2 hc]
      exact (PrepareLayerStack.configure_status _ _ _ _).resolve_left hc

/-- C16: the expression `new uint8_t[n]` of line 190 is the throwing form, whose
value is never null.  With such an allocator `AllocateLayerStack` returns 0 for
every display and frame, whatever the capacity and the requirement, and
`HWCDisplayExternal::Prepare` never returns `-ENOMEM`: the return of the
out-of-memory error behind the test for a null pointer is never taken. -/
theorem AllocateLayerStack_never_returns_ENOMEM (env : Env) (new_array : Nat → Nat)
    (stale : Nat → LayerRect) (display_intf_ : DisplayInterface) (d : HWCDisplay)
    (content_list : hwc_display_contents_1_t) (hnew : ∀ n, new_array n ≠ 0) :
    (AllocateLayerStack env new_array stale d content_list).1 = 0 ∧
      (HWCDisplayExternal.Prepare env new_array stale display_intf_ d content_list).status ≠
        -ENOMEM := by
  have ha : (AllocateLayerStack env new_array stale d content_list).1 = 0 := by
    by_cases hfit : requirement env content_list ≤ d.layer_stack_memory_.size
    · rw [AllocateLayerStack_of_fits env new_array stale d content_list hfit]
    · rw [AllocateLayerStack_of_grows env new_array stale d content_list (by omega)
        (hnew _)]
  refine ⟨ha, ?_⟩
  have key : ∀ o : Outcome, (o.status = 0 ∨ o.status = -EINVAL) →
      (if o.status ≠ 0 then o else { o with status := 0 }).status ≠ -ENOMEM := by
    intro o h
    by_cases hp : o.status ≠ 0
    · rw [if_pos hp]
      rcases h with h | h
      · exact absurd h hp
      · rw [h]; simp [ENOMEM, EINVAL]
    · rw [if_neg hp]
      simp [ENOMEM]
  unfold HWCDisplayExternal.Prepare
  simp only [ha, ne_eq, not_true_eq_false, if_false]
  exact key _ (PrepareLayerStack_status_cases _ _ _)

/-- C16 at a concrete frame: `frame2` on a fresh display, whose capacity 0 is
below the requirement, with an allocator that returns address 4096. -/
theorem AllocateLayerStack_never_returns_ENOMEM_witness :
    HWCDisplay.init.layer_stack_memory_.size < requirement env0 frame2 ∧
      (AllocateLayerStack env0 (fun _ => 4096) (fun _ => sentinel) HWCDisplay.init
        frame2).1 = 0 ∧
      (HWCDisplayExternal.Prepare env0 (fun _ => 4096) (fun _ => sentinel) engineOk
        HWCDisplay.init frame2).status ≠ -ENOMEM :=
  ⟨by decide,
    AllocateLayerStack_never_returns_ENOMEM env0 (fun _ => 4096) (fun _ => sentinel) engineOk
      HWCDisplay.init frame2 (fun _ => Nat.succ_ne_zero 4095)⟩

/-! ## The capacity is a multiple of the allocation step -/

/-- One call of `AllocateLayerStack` keeps the capacity a multiple of
`kSizeSteps`, whether it reuses the storage, grows it, or fails. -/
theorem AllocateLayerStack_step_dvd (env : Env) (new_array : Nat → Nat)
    (stale : Nat → LayerRect) (d : HWCDisplay) (content_list : hwc_display_contents_1_t)
    (hd : env.kSizeSteps ∣ d.layer_stack_memory_.size) :
    env.kSizeSteps ∣
      (AllocateLayerStack env new_array stale d content_list).2.layer_stack_memory_.size := by
  by_cases hfit : requirement env content_list ≤ d.layer_stack_memory_.size
  · rw [AllocateLayerStack_of_fits env new_array stale d content_list hfit]
    exact hd
  · have hlt : d.layer_stack_memory_.size < requirement env content_list := by omega
    by_cases hnew : new_array (ROUND_UP (requirement env content_list) env.kSizeSteps) = 0
    · rw [AllocateLayerStack_of_fails env new_array stale d content_list hlt hnew]
      show env.kSizeSteps ∣
        (if d.layer_stack_memory_.raw ≠ 0 then 0 else d.layer_stack_memory_.size)
      split_ifs
      · exact Nat.dvd_zero _
      · exact hd
    · rw [AllocateLayerStack_of_grows env new_array stale d content_list hlt hnew]
      exact dvd_ROUND_UP _ _

/-- A sequence of `AllocateLayerStack` calls keeps the capacity a multiple of
`kSizeSteps`. -/
theorem AllocateLayerStack.run_dvd (env : Env) (calls : List AllocCall) (d : HWCDisplay)
    (hd : env.kSizeSteps ∣ d.layer_stack_memory_.size) :
    env.kSizeSteps ∣ (AllocateLayerStack.run env d calls).layer_stack_memory_.size := by
  induction calls generalizing d with
  | nil => exact hd
  | cons call rest ih =>
      unfold AllocateLayerStack.run
      exact ih _ (AllocateLayerStack_step_dvd env call.new_array call.stale d
        call.content_list hd)

/-- C18: the capacity of the arena is a multiple of `kSizeSteps` in every state
reached from the empty arena by a sequence of `AllocateLayerStack` calls,
including calls that reuse the storage and calls whose allocation fails. -/
theorem AllocateLayerStack_capacity_multiple (env : Env) (calls : List AllocCall) :
    env.kSizeSteps ∣
      (AllocateLayerStack.run env HWCDisplay.init calls).layer_stack_memory_.size :=
  AllocateLayerStack.run_dvd env calls HWCDisplay.init (Nat.dvd_zero _)

/-! ## The redraw test against the cache -/

/-- The redraw test unfolded: a count mismatch or a stack flag, or an index below
the layer count with a changed decision on a layer that is not the GPU target
or a changed handle on a GPU-composed layer. -/
theorem NeedsFrameBufferRefresh_eq_true_iff (d : HWCDisplay)
    (content_list : hwc_display_contents_1_t) :
    NeedsFrameBufferRefresh d content_list = true ↔
      ((d.layer_stack_cache_.layer_count ≠ d.layer_stack_.layer_count ∨
          d.layer_stack_.flags.skip_present = true ∨
          d.layer_stack_.flags.geometry_changed = true) ∨
        ∃ k, k < d.layer_stack_.layer_count ∧
          (((d.layer_stack_.layer k).composition ≠ kCompositionGPUTarget ∧
              (d.layer_stack_cache_.layer_cache k).composition ≠
                (d.layer_stack_.layer k).composition) ∨
            ((d.layer_stack_.layer k).composition = kCompositionGPU ∧
              (d.layer_stack_cache_.layer_cache k).handle ≠
                (content_list.hwLayer k).handle))) := by
  unfold NeedsFrameBufferRefresh
  simp only []
  by_cases h : d.layer_stack_cache_.layer_count ≠ d.layer_stack_.layer_count ∨
      d.layer_stack_.flags.skip_present = true ∨ d.layer_stack_.flags.geometry_changed = true
  · rw [if_pos h]
    exact ⟨fun _ => Or.inl h, fun _ => rfl⟩
  · rw [if_neg h, NeedsFrameBufferRefresh.loop_eq_true_iff]
    constructor
    · rintro ⟨k, _, h2, h3⟩
      exact Or.inr ⟨k, by omega, h3⟩
    · rintro (h1 | ⟨k, hk, h3⟩)
      · exact absurd h1 h
      · exact ⟨k, Nat.zero_le k, by omega, h3⟩

/-- Against a cache that has just recorded a stack and a list, a stack with the
same layer count, the same decisions, clear flags, and a list with the same
handles needs no redraw. -/
theorem NeedsFrameBufferRefresh_after_cache (d : HWCDisplay)
    (content_list : hwc_display_contents_1_t) (memory2 : LayerStackMemory)
    (stack2 : LayerStack) (content2 : hwc_display_contents_1_t)
    (hcount : stack2.layer_count = d.layer_stack_.layer_count)
    (hskip : stack2.flags.skip_present = false)
    (hgeom : stack2.flags.geometry_changed = false)
    (hsame : ∀ i, i < d.layer_stack_.layer_count →
      (stack2.layer i).composition = (d.layer_stack_.layer i).composition ∧
        (content2.hwLayer i).handle = (content_list.hwLayer i).handle) :
    NeedsFrameBufferRefresh
      { layer_stack_memory_ := memory2, layer_stack_ := stack2,
        layer_stack_cache_ := (CacheLayerStackInfo d content_list).layer_stack_cache_ }
      content2 = false := by
  rw [← Bool.not_eq_true, NeedsFrameBufferRefresh_eq_true_iff]
  simp only [CacheLayerStackInfo, CacheLayerStackInfo.loop_apply]
  rintro ((h | h | h) | ⟨k, hk, h⟩)
  · exact h hcount.symm
  · rw [hskip] at h; cases h
  · rw [hgeom] at h; cases h
  · rw [hcount] at hk
    obtain ⟨hc, hh⟩ := hsame k hk
    by_cases hT : (d.layer_stack_.layer k).composition = kCompositionGPUTarget
    · rcases h with ⟨h1, _⟩ | ⟨h1, _⟩
      · exact h1 (hc.trans hT)
      · rw [hc, hT] at h1; cases h1
    · have hcond : 0 ≤ k ∧ k < 0 + d.layer_stack_.layer_count ∧
          (d.layer_stack_.layer k).composition ≠ kCompositionGPUTarget :=
        ⟨Nat.zero_le k, by omega, hT⟩
      rw [if_pos hcond] at h
      rcases h with ⟨_, h1⟩ | ⟨_, h1⟩
      · exact h1 hc.symm
      · exact h1 hh.symm

/-- The cache update is a fixpoint of the redraw test on a stack whose layer
count is within the array: no store goes past the end of the array; right after
`CacheLayerStackInfo` has recorded the stack and a list,
`NeedsFrameBufferRefresh` on the same stack and list is true exactly when
`skip_present` or `geometry_changed` is set; and a next frame of two or more
layers whose engine stack has the same layer count and decisions, clear flags,
and whose list has the same handles, needs no redraw and has every layer that
is not the GPU target written back as `HWC_OVERLAY`. -/
theorem CacheLayerStackInfo_fixpoint_in_bounds (d : HWCDisplay)
    (content_list : hwc_display_contents_1_t)
    (hbound : d.layer_stack_.layer_count ≤ d.layer_stack_cache_.kMaxLayerCount) :
    (CacheLayerStackInfo d content_list).layer_stack_cache_.overrun =
        d.layer_stack_cache_.overrun ∧
    (NeedsFrameBufferRefresh (CacheLayerStackInfo d content_list) content_list = true ↔
        (d.layer_stack_.flags.skip_present = true ∨
          d.layer_stack_.flags.geometry_changed = true)) ∧
      ∀ (display_intf_ : DisplayInterface) (memory2 : LayerStackMemory) (stack2 : LayerStack)
        (content2 : hwc_display_contents_1_t),
        2 ≤ content2.numHwLayers →
        (PrepareLayerStack display_intf_
          { layer_stack_memory_ := memory2, layer_stack_ := stack2,
            layer_stack_cache_ := (CacheLayerStackInfo d content_list).layer_stack_cache_ }
          content2).status = 0 →
        (display_intf_.Prepare (PrepareLayerStack.engineInput
          { layer_stack_memory_ := memory2, layer_stack_ := stack2,
            layer_stack_cache_ := (CacheLayerStackInfo d content_list).layer_stack_cache_ }
          content2)).2.layer_count = d.layer_stack_.layer_count →
        (display_intf_.Prepare (PrepareLayerStack.engineInput
          { layer_stack_memory_ := memory2, layer_stack_ := stack2,
            layer_stack_cache_ := (CacheLayerStackInfo d content_list).layer_stack_cache_ }
          content2)).2.flags.skip_present = false →
        (display_intf_.Prepare (PrepareLayerStack.engineInput
          { layer_stack_memory_ := memory2, layer_stack_ := stack2,
            layer_stack_cache_ := (CacheLayerStackInfo d content_list).layer_stack_cache_ }
          content2)).2.flags.geometry_changed = false →
        (∀ i, i < d.layer_stack_.layer_count →
          ((display_intf_.Prepare (PrepareLayerStack.engineInput
            { layer_stack_memory_ := memory2, layer_stack_ := stack2,
              layer_stack_cache_ := (CacheLayerStackInfo d content_list).layer_stack_cache_ }
            content2)).2.layer i).composition = (d.layer_stack_.layer i).composition ∧
          (content2.hwLayer i).handle = (content_list.hwLayer i).handle) →
        NeedsFrameBufferRefresh
            { layer_stack_memory_ := memory2,
              layer_stack_ := (display_intf_.Prepare (PrepareLayerStack.engineInput
                { layer_stack_memory_ := memory2, layer_stack_ := stack2,
                  layer_stack_cache_ :=
                    (CacheLayerStackInfo d content_list).layer_stack_cache_ }
                content2)).2,
              layer_stack_cache_ := (CacheLayerStackInfo d content_list).layer_stack_cache_ }
            content2 = false ∧
          ∀ i, i < content2.numHwLayers →
            ((display_intf_.Prepare (PrepareLayerStack.engineInput
              { layer_stack_memory_ := memory2, layer_stack_ := stack2,
                layer_stack_cache_ := (CacheLayerStackInfo d content_list).layer_stack_cache_ }
              content2)).2.layer i).composition ≠ kCompositionGPUTarget →
            ((PrepareLayerStack display_intf_
              { layer_stack_memory_ := memory2, layer_stack_ := stack2,
                layer_stack_cache_ := (CacheLayerStackInfo d content_list).layer_stack_cache_ }
              content2).content_list.hwLayer i).compositionType = HWC_OVERLAY := by
  refine ⟨(CacheLayerStackInfo_in_bounds d content_list hbound).2.2.2.1, ?_⟩
  constructor
  · constructor
    · intro h
      by_contra hn
      have hskip : d.layer_stack_.flags.skip_present = false := by
        cases hv : d.layer_stack_.flags.skip_present
        · rfl
        · exact absurd (Or.inl hv) hn
      have hgeom : d.layer_stack_.flags.geometry_changed = false := by
        cases hv : d.layer_stack_.flags.geometry_changed
        · rfl
        · exact absurd (Or.inr hv) hn
      have hfalse := NeedsFrameBufferRefresh_after_cache d content_list d.layer_stack_memory_
        d.layer_stack_ content_list rfl hskip hgeom (fun i _ => ⟨rfl, rfl⟩)
      have e : CacheLayerStackInfo d content_list =
          { layer_stack_memory_ := d.layer_stack_memory_, layer_stack_ := d.layer_stack_,
            layer_stack_cache_ := (CacheLayerStackInfo d content_list).layer_stack_cache_ } :=
        rfl
      rw [e, hfalse] at h
      cases h
    · intro h
      rw [NeedsFrameBufferRefresh_eq_true_iff]
      rcases h with h | h
      · exact Or.inl (Or.inr (Or.inl h))
      · exact Or.inl (Or.inr (Or.inr h))
  · intro display_intf_ memory2 stack2 content2 h2 hs hcount hskip hgeom hsame
    have hfalse := NeedsFrameBufferRefresh_after_cache d content_list memory2 _ content2
      hcount hskip hgeom hsame
    refine ⟨hfalse, ?_⟩
    intro i hi hT
    obtain ⟨hc, he⟩ := PrepareLayerStack_status_eq_zero display_intf_ _ content2 h2 hs
    rw [PrepareLayerStack_of_success display_intf_ _ content2 h2 hc he]
    simp only [hwc_display_contents_1_t.hwLayer]
    rw [PrepareLayerStack.writeBack_getD _ _ _ _ _ hi]
    simp only [Nat.zero_add]
    rw [hfalse, if_pos ⟨rfl, hT⟩]
    rfl

/-- The fixpoint at concrete frames: `frame2` prepared a second time against the cache
that recorded it, on a stack allocated anew, with an accepting engine. -/
theorem CacheLayerStackInfo_fixpoint_in_bounds_frame2 :
    (NeedsFrameBufferRefresh (CacheLayerStackInfo display2 frame2) frame2 = true ↔
      (display2.layer_stack_.flags.skip_present = true ∨
        display2.layer_stack_.flags.geometry_changed = true)) ∧
    (NeedsFrameBufferRefresh
        { layer_stack_memory_ := allocated2.layer_stack_memory_,
          layer_stack_ := (engineOk.Prepare (PrepareLayerStack.engineInput
            { layer_stack_memory_ := allocated2.layer_stack_memory_,
              layer_stack_ := allocated2.layer_stack_,
              layer_stack_cache_ := (CacheLayerStackInfo display2 frame2).layer_stack_cache_ }
            frame2)).2,
          layer_stack_cache_ := (CacheLayerStackInfo display2 frame2).layer_stack_cache_ }
        frame2 = false ∧
      ((PrepareLayerStack engineOk
        { layer_stack_memory_ := allocated2.layer_stack_memory_,
          layer_stack_ := allocated2.layer_stack_,
          layer_stack_cache_ := (CacheLayerStackInfo display2 frame2).layer_stack_cache_ }
        frame2).content_list.hwLayer 0).compositionType = HWC_OVERLAY) :=
  ⟨(CacheLayerStackInfo_fixpoint_in_bounds display2 frame2 (by decide)).2.1,
    ((CacheLayerStackInfo_fixpoint_in_bounds display2 frame2 (by decide)).2.2 engineOk allocated2.layer_stack_memory_
      allocated2.layer_stack_ frame2 (by decide) (by decide) (by decide) (by decide)
      (by decide) (by decide)).1,
    ((CacheLayerStackInfo_fixpoint_in_bounds display2 frame2 (by decide)).2.2 engineOk allocated2.layer_stack_memory_
      allocated2.layer_stack_ frame2 (by decide) (by decide) (by decide) (by decide)
      (by decide) (by decide)).2 0 (by decide) (by decide)⟩

/-- C19: the frame `frame34` of 34 layers, prepared on a fresh display with an
accepting engine: the call succeeds, and its cache update stores past the end of
the 32-slot array, which no store had done before.  The cache that the redraw
test of an identical next frame reads is then not the recorded frame. -/
theorem HWCDisplayExternal_Prepare_overruns_cache :
    frame34.numHwLayers = 34 ∧
      HWCDisplay.init.layer_stack_cache_.kMaxLayerCount = 32 ∧
      HWCDisplay.init.layer_stack_cache_.overrun = false ∧
      (HWCDisplayExternal.Prepare env0 (fun _ => 4096) (fun _ => LayerRect.init) engineOk
        HWCDisplay.init frame34).status = 0 ∧
      (HWCDisplayExternal.Prepare env0 (fun _ => 4096) (fun _ => LayerRect.init) engineOk
        HWCDisplay.init frame34).display.layer_stack_cache_.overrun = true := by
  decide

/-! ## Which handles the redraw test reads -/

/-- C20: two runs of `NeedsFrameBufferRefresh` on the same display whose lists
agree on the handles of the GPU-composed layers give the same result, whatever
the handles of the other layers.  When the layer count matches the cache, both
flags are clear and every layer that is not the GPU target has its cached
composition, the result is true if some GPU-composed layer has a handle other
than the cached one, and false if every GPU-composed layer has its cached
handle, also when the handles of hardware-composed layers have changed. -/
theorem NeedsFrameBufferRefresh_handles (d : HWCDisplay)
    (content1 content2 : hwc_display_contents_1_t) :
    ((∀ i, i < d.layer_stack_.layer_count →
        (d.layer_stack_.layer i).composition = kCompositionGPU →
        (content1.hwLayer i).handle = (content2.hwLayer i).handle) →
      NeedsFrameBufferRefresh d content1 = NeedsFrameBufferRefresh d content2) ∧
    (d.layer_stack_cache_.layer_count = d.layer_stack_.layer_count →
      d.layer_stack_.flags.skip_present = false →
      d.layer_stack_.flags.geometry_changed = false →
      (∀ i, i < d.layer_stack_.layer_count →
        (d.layer_stack_.layer i).composition ≠ kCompositionGPUTarget →
        (d.layer_stack_cache_.layer_cache i).composition =
          (d.layer_stack_.layer i).composition) →
      ((∃ i, i < d.layer_stack_.layer_count ∧
          (d.layer_stack_.layer i).composition = kCompositionGPU ∧
          (d.layer_stack_cache_.layer_cache i).handle ≠ (content1.hwLayer i).handle) →
        NeedsFrameBufferRefresh d content1 = true) ∧
      ((∀ i, i < d.layer_stack_.layer_count →
          (d.layer_stack_.layer i).composition = kCompositionGPU →
          (d.layer_stack_cache_.layer_cache i).handle = (content1.hwLayer i).handle) →
        NeedsFrameBufferRefresh d content1 = false)) := by
  constructor
  · intro hsame
    rw [Bool.eq_iff_iff, NeedsFrameBufferRefresh_eq_true_iff,
      NeedsFrameBufferRefresh_eq_true_iff]
    constructor
    · rintro (h | ⟨k, hk, h | ⟨hg, hh⟩⟩)
      · exact Or.inl h
      · exact Or.inr ⟨k, hk, Or.inl h⟩
      · exact Or.inr ⟨k, hk, Or.inr ⟨hg, by rw [← hsame k hk hg]; exact hh⟩⟩
    · rintro (h | ⟨k, hk, h | ⟨hg, hh⟩⟩)
      · exact Or.inl h
      · exact Or.inr ⟨k, hk, Or.inl h⟩
      · exact Or.inr ⟨k, hk, Or.inr ⟨hg, by rw [hsame k hk hg]; exact hh⟩⟩
  · intro hcount hskip hgeom hcomp
    constructor
    · rintro ⟨i, hi, hg, hh⟩
      rw [NeedsFrameBufferRefresh_eq_true_iff]
      exact Or.inr ⟨i, hi, Or.inr ⟨hg, hh⟩⟩
    · intro hh
      rw [← Bool.not_eq_true, NeedsFrameBufferRefresh_eq_true_iff]
      rintro ((h | h | h) | ⟨k, hk, ⟨hT, h⟩ | ⟨hg, h⟩⟩)
      · exact h hcount
      · rw [hskip] at h; cases h
      · rw [hgeom] at h; cases h
      · exact h (hcomp k hk hT)
      · exact h (hh k hk hg)

/-- C20 at concrete displays: `display2` holds a hardware-composed layer 0 and
`displayGPU` a GPU-composed layer 0, both cached with handle 11; the list
`frameNewHandle` presents handle 99 on layer 0. -/
theorem NeedsFrameBufferRefresh_handles_witness :
    NeedsFrameBufferRefresh display2 frameNewHandle =
        NeedsFrameBufferRefresh display2 frame2 ∧
      NeedsFrameBufferRefresh displayGPU frameNewHandle = true ∧
      NeedsFrameBufferRefresh display2 frameNewHandle = false :=
  ⟨(NeedsFrameBufferRefresh_handles display2 frameNewHandle frame2).1 (by decide),
    ((NeedsFrameBufferRefresh_handles displayGPU frameNewHandle frame2).2 (by decide)
      (by decide) (by decide) (by decide)).1 ⟨0, by decide, by decide, by decide⟩,
    ((NeedsFrameBufferRefresh_handles display2 frameNewHandle frame2).2 (by decide)
      (by decide) (by decide) (by decide)).2 (by decide)⟩

/-! ## The configuration loop, layer by layer -/

/-- Reading back the layer just assigned. -/
theorem LayerStack.layer_setLayer_self (s : LayerStack) (i : Nat) (l : Layer)
    (hi : i < s.layers.length) : (s.setLayer i l).layer i = l := by
  simp [LayerStack.layer, LayerStack.setLayer, List.getElem?_set_self hi]

/-- Assigning layer `i` leaves every other layer as it is. -/
theorem LayerStack.layer_setLayer_ne (s : LayerStack) (i j : Nat) (l : Layer) (hij : j ≠ i) :
    (s.setLayer i l).layer j = s.layer j := by
  simp [LayerStack.layer, LayerStack.setLayer, List.getElem?_set_ne (Ne.symm hij)]

/-- Configuring layer `i` keeps the length of the layer array. -/
theorem PrepareLayerStack.configureLayer_length (layer_stack_cache_ : LayerStackCache)
    (i : Nat) (hwc_layer : hwc_layer_1_t) (layer_stack_ : LayerStack)
    (layer_buffer : LayerBuffer) (stack_flags : LayerStackFlags) :
    (PrepareLayerStack.configureLayer layer_stack_cache_ i hwc_layer layer_stack_ layer_buffer
      stack_flags).layers.length = layer_stack_.layers.length := by
  simp [PrepareLayerStack.configureLayer, LayerStack.setLayer]

/-- Configuring layer `i` leaves every other layer as it is. -/
theorem PrepareLayerStack.configureLayer_layer_ne (layer_stack_cache_ : LayerStackCache)
    (i j : Nat) (hwc_layer : hwc_layer_1_t) (layer_stack_ : LayerStack)
    (layer_buffer : LayerBuffer) (stack_flags : LayerStackFlags) (hij : j ≠ i) :
    (PrepareLayerStack.configureLayer layer_stack_cache_ i hwc_layer layer_stack_ layer_buffer
      stack_flags).layer j = layer_stack_.layer j := by
  unfold PrepareLayerStack.configureLayer
  exact LayerStack.layer_setLayer_ne _ _ _ _ hij

/-- The flags that configuring layer `i` gives it: `skip` from the skip bit of
the external layer, `updating` from the comparison of the cached handle with
the external one. -/
theorem PrepareLayerStack.configureLayer_flags (layer_stack_cache_ : LayerStackCache)
    (i : Nat) (hwc_layer : hwc_layer_1_t) (layer_stack_ : LayerStack)
    (layer_buffer : LayerBuffer) (stack_flags : LayerStackFlags)
    (hi : i < layer_stack_.layers.length) :
    ((PrepareLayerStack.configureLayer layer_stack_cache_ i hwc_layer layer_stack_ layer_buffer
      stack_flags).layer i).flags =
      { skip := decide ((hwc_layer.flags &&& HWC_SKIP_LAYER) > 0),
        updating := decide ((layer_stack_cache_.layer_cache i).handle ≠ hwc_layer.handle) } := by
  unfold PrepareLayerStack.configureLayer
  exact congrArg Layer.flags (LayerStack.layer_setLayer_self _ _ _ hi)

/-- The transform that configuring layer `i` gives it, as the source computes
it from the transform bitmask. -/
theorem PrepareLayerStack.configureLayer_transform (layer_stack_cache_ : LayerStackCache)
    (i : Nat) (hwc_layer : hwc_layer_1_t) (layer_stack_ : LayerStack)
    (layer_buffer : LayerBuffer) (stack_flags : LayerStackFlags)
    (hi : i < layer_stack_.layers.length) :
    ((PrepareLayerStack.configureLayer layer_stack_cache_ i hwc_layer layer_stack_ layer_buffer
      stack_flags).layer i).transform =
      { flip_horizontal := decide ((hwc_layer.transform &&& HWC_TRANSFORM_FLIP_H) > 0),
        flip_vertical := decide ((hwc_layer.transform &&& HWC_TRANSFORM_FLIP_V) > 0),
        rotation := if (hwc_layer.transform &&& HWC_TRANSFORM_ROT_90) ≠ 0 then 90 else 0 } := by
  unfold PrepareLayerStack.configureLayer
  exact congrArg Layer.transform (LayerStack.layer_setLayer_self _ _ _ hi)

/-- The skip flag of the stack after configuring a layer: set when the layer has
the skip bit, otherwise what the given flags hold. -/
theorem PrepareLayerStack.configureLayer_skip_present (layer_stack_cache_ : LayerStackCache)
    (i : Nat) (hwc_layer : hwc_layer_1_t) (layer_stack_ : LayerStack)
    (layer_buffer : LayerBuffer) (stack_flags : LayerStackFlags) :
    (PrepareLayerStack.configureLayer layer_stack_cache_ i hwc_layer layer_stack_ layer_buffer
      stack_flags).flags.skip_present =
      (decide ((hwc_layer.flags &&& HWC_SKIP_LAYER) > 0) || stack_flags.skip_present) := by
  unfold PrepareLayerStack.configureLayer
  simp only [LayerStack.setLayer]
  by_cases h : (hwc_layer.flags &&& HWC_SKIP_LAYER) > 0
  · simp [h]
  · simp [h]

/-- Past a layer with a good format, the configuration loop goes on with that
layer configured; the skip flag it passes on is the stack's or the layer's. -/
theorem PrepareLayerStack.configure_cons_good (layer_stack_cache_ : LayerStackCache)
    (a : hwc_layer_1_t) (t : List hwc_layer_1_t) (i : Nat) (layer_stack_ : LayerStack)
    (ha : GoodFormat a) :
    ∃ layer_buffer stack_flags,
      stack_flags.skip_present = layer_stack_.flags.skip_present ∧
      PrepareLayerStack.configure layer_stack_cache_ (a :: t) i layer_stack_ =
        PrepareLayerStack.configure layer_stack_cache_ t (i + 1)
          (PrepareLayerStack.configureLayer layer_stack_cache_ i a layer_stack_ layer_buffer
            stack_flags) := by
  unfold GoodFormat at ha
  by_cases h1 : a.handle ≠ 0
  · have h2 : ¬ (SetFormat a.pvt_handle.format
        (layer_stack_.layer i).input_buffer.format).1 ≠ 0 :=
      not_not.2 ((SetFormat_status_eq_zero_iff _ _).2 (ha h1))
    refine ⟨{ (layer_stack_.layer i).input_buffer with
        format := (SetFormat a.pvt_handle.format
          (layer_stack_.layer i).input_buffer.format).2,
        width := a.pvt_handle.width, height := a.pvt_handle.height },
      (if (a.pvt_handle.flags &&& PRIV_FLAGS_SECURE_BUFFER) ≠ 0 then
        { (if a.pvt_handle.bufferType = BUFFER_TYPE_VIDEO then
            { layer_stack_.flags with video_present := true }
          else layer_stack_.flags) with secure_present := true }
      else
        (if a.pvt_handle.bufferType = BUFFER_TYPE_VIDEO then
          { layer_stack_.flags with video_present := true }
        else layer_stack_.flags)), ?_, ?_⟩
    · split_ifs <;> rfl
    · rw [PrepareLayerStack.configure]
      simp only []
      rw [if_pos h1, if_neg h2]
  · refine ⟨(layer_stack_.layer i).input_buffer, layer_stack_.flags, rfl, ?_⟩
    rw [PrepareLayerStack.configure]
    simp only []
    rw [if_neg h1]

/-- At a layer with a non-null handle and an unrecognised format, the
configuration loop stops with `-EINVAL` and leaves the stack as it found it. -/
theorem PrepareLayerStack.configure_cons_bad (layer_stack_cache_ : LayerStackCache)
    (a : hwc_layer_1_t) (t : List hwc_layer_1_t) (i : Nat) (layer_stack_ : LayerStack)
    (h1 : a.handle ≠ 0) (hbad : ¬ RecognisedFormat a.pvt_handle.format) :
    PrepareLayerStack.configure layer_stack_cache_ (a :: t) i layer_stack_ =
      (-EINVAL, layer_stack_) := by
  have h2 : (SetFormat a.pvt_handle.format (layer_stack_.layer i).input_buffer.format).1 ≠ 0 :=
    fun h => hbad ((SetFormat_status_eq_zero_iff _ _).1 h)
  rw [PrepareLayerStack.configure]
  simp only []
  rw [if_pos h1, if_pos h2]

/-- The configuration loop keeps the length of the layer array. -/
theorem PrepareLayerStack.configure_length (layer_stack_cache_ : LayerStackCache)
    (l : List hwc_layer_1_t) (i : Nat) (layer_stack_ : LayerStack) :
    (PrepareLayerStack.configure layer_stack_cache_ l i layer_stack_).2.layers.length =
      layer_stack_.layers.length := by
  induction l generalizing i layer_stack_ with
  | nil => rfl
  | cons a t ih =>
      by_cases ha : GoodFormat a
      · obtain ⟨b, f, _, e⟩ :=
          PrepareLayerStack.configure_cons_good layer_stack_cache_ a t i layer_stack_ ha
        rw [e, ih, PrepareLayerStack.configureLayer_length]
      · obtain ⟨h1, hbad⟩ := Classical.not_imp.1 ha
        rw [PrepareLayerStack.configure_cons_bad layer_stack_cache_ a t i layer_stack_ h1 hbad]

/-- The configuration loop from index `i` on leaves every layer below `i` as it
is, whether it completes or stops at a bad format. -/
theorem PrepareLayerStack.configure_layer_lt (layer_stack_cache_ : LayerStackCache)
    (l : List hwc_layer_1_t) (i j : Nat) (layer_stack_ : LayerStack) (hj : j < i) :
    (PrepareLayerStack.configure layer_stack_cache_ l i layer_stack_).2.layer j =
      layer_stack_.layer j := by
  induction l generalizing i layer_stack_ with
  | nil => rfl
  | cons a t ih =>
      by_cases ha : GoodFormat a
      · obtain ⟨b, f, _, e⟩ :=
          PrepareLayerStack.configure_cons_good layer_stack_cache_ a t i layer_stack_ ha
        rw [e, ih (i + 1) _ (by omega),
          PrepareLayerStack.configureLayer_layer_ne _ _ _ _ _ _ _ (by omega)]
      · obtain ⟨h1, hbad⟩ := Classical.not_imp.1 ha
        rw [PrepareLayerStack.configure_cons_bad layer_stack_cache_ a t i layer_stack_ h1 hbad]

/-- Layer `j` after the configuration loop, when the external layers up to `j`
have good formats: it is the layer that configuring layer `j` from its
external layer produced, on a stack with the same layer array length. -/
theorem PrepareLayerStack.configure_layer_at (layer_stack_cache_ : LayerStackCache)
    (l : List hwc_layer_1_t) (i j : Nat) (layer_stack_ : LayerStack) (hij : i ≤ j)
    (hj : j < i + l.length)
    (hgood : ∀ m, m ≤ j - i → GoodFormat (l.getD m hwc_layer_1_t.zero)) :
    ∃ stack1 layer_buffer stack_flags,
      stack1.layers.length = layer_stack_.layers.length ∧
      (PrepareLayerStack.configure layer_stack_cache_ l i layer_stack_).2.layer j =
        (PrepareLayerStack.configureLayer layer_stack_cache_ j
          (l.getD (j - i) hwc_layer_1_t.zero) stack1 layer_buffer stack_flags).layer j := by
  induction l generalizing i layer_stack_ with
  | nil => simp at hj; omega
  | cons a t ih =>
      have ha : GoodFormat a := by simpa using hgood 0 (Nat.zero_le _)
      obtain ⟨b, f, _, e⟩ :=
        PrepareLayerStack.configure_cons_good layer_stack_cache_ a t i layer_stack_ ha
      rw [e]
      by_cases hji : j = i
      · subst hji
        refine ⟨layer_stack_, b, f, rfl, ?_⟩
        rw [PrepareLayerStack.configure_layer_lt _ _ _ _ _ (by omega)]
        simp
      · have hlen : j < (i + 1) + t.length := by simp at hj; omega
        have hg : ∀ m, m ≤ j - (i + 1) → GoodFormat (t.getD m hwc_layer_1_t.zero) := by
          intro m hm
          have := hgood (m + 1) (by omega)
          simpa using this
        obtain ⟨s1, b1, f1, hl1, e1⟩ := ih (i + 1) _ (by omega) hlen hg
        refine ⟨s1, b1, f1, ?_, ?_⟩
        · rw [hl1, PrepareLayerStack.configureLayer_length]
        · rw [e1]
          have hidx : j - i = (j - (i + 1)) + 1 := by omega
          rw [hidx, List.getD_cons_succ]

/-- The stack's skip flag after a configuration loop over layers with good
formats: set when it was set before or when some layer has the skip bit. -/
theorem PrepareLayerStack.configure_skip_present (layer_stack_cache_ : LayerStackCache)
    (l : List hwc_layer_1_t) (i : Nat) (layer_stack_ : LayerStack)
    (hgood : ∀ hwc_layer ∈ l, GoodFormat hwc_layer) :
    (PrepareLayerStack.configure layer_stack_cache_ l i layer_stack_).2.flags.skip_present =
      (l.any (fun hwc_layer => decide ((hwc_layer.flags &&& HWC_SKIP_LAYER) > 0)) ||
        layer_stack_.flags.skip_present) := by
  induction l generalizing i layer_stack_ with
  | nil => simp [PrepareLayerStack.configure]
  | cons a t ih =>
      obtain ⟨b, f, hf, e⟩ :=
        PrepareLayerStack.configure_cons_good layer_stack_cache_ a t i layer_stack_
          (hgood a (List.mem_cons_self _ _))
      rw [e, ih _ _ (fun h hh => hgood h (List.mem_cons_of_mem _ hh)),
        PrepareLayerStack.configureLayer_skip_present, hf, List.any_cons]
      cases decide ((a.flags &&& HWC_SKIP_LAYER) > 0) <;>
        cases t.any (fun hwc_layer => decide ((hwc_layer.flags &&& HWC_SKIP_LAYER) > 0)) <;>
        simp

/-- The configuration loop over a concatenation: the first part alone when it
fails, and otherwise the second part run on the stack the first part left. -/
theorem PrepareLayerStack.configure_append (layer_stack_cache_ : LayerStackCache)
    (l1 l2 : List hwc_layer_1_t) (i : Nat) (layer_stack_ : LayerStack) :
    PrepareLayerStack.configure layer_stack_cache_ (l1 ++ l2) i layer_stack_ =
      if (PrepareLayerStack.configure layer_stack_cache_ l1 i layer_stack_).1 ≠ 0 then
        PrepareLayerStack.configure layer_stack_cache_ l1 i layer_stack_
      else
        PrepareLayerStack.configure layer_stack_cache_ l2 (i + l1.length)
          (PrepareLayerStack.configure layer_stack_cache_ l1 i layer_stack_).2 := by
  induction l1 generalizing i layer_stack_ with
  | nil => simp [PrepareLayerStack.configure]
  | cons a t ih =>
      have hidx : i + (a :: t).length = i + 1 + t.length := by
        simp only [List.length_cons]; omega
      rw [hidx]
      simp only [List.cons_append, PrepareLayerStack.configure]
      by_cases h1 : a.handle ≠ 0
      · by_cases h2 : (SetFormat a.pvt_handle.format
            (layer_stack_.layer i).input_buffer.format).1 ≠ 0
        · simp only [if_pos h1, if_pos h2]
          simp [EINVAL]
        · simp only [if_pos h1, if_neg h2]
          exact ih _ _
      · simp only [if_neg h1]
        exact ih _ _

/-- A frame without a bad format has a good format on every layer. -/
theorem GoodFormat_of_not_HasBadFormat (content_list : hwc_display_contents_1_t)
    (h : ¬ HasBadFormat content_list) :
    ∀ hwc_layer ∈ content_list.hwLayers, GoodFormat hwc_layer := by
  intro l hl h0
  by_contra hr
  exact h ⟨l, hl, h0, hr⟩

/-- An entry of the external list below its length is a member of the list. -/
theorem hwLayer_mem (content_list : hwc_display_contents_1_t) (i : Nat)
    (hi : i < content_list.numHwLayers) :
    content_list.hwLayer i ∈ content_list.hwLayers := by
  unfold hwc_display_contents_1_t.numHwLayers at hi
  simp only [hwc_display_contents_1_t.hwLayer, List.getD_eq_getElem?_getD,
    List.getElem?_eq_getElem hi, Option.getD_some]
  exact List.getElem_mem hi

/-- On a frame without a bad format, layer `i` of the stack handed to the engine
is the layer that configuring layer `i` from external layer `i` produced. -/
theorem PrepareLayerStack.engineInput_layer (d : HWCDisplay)
    (content_list : hwc_display_contents_1_t) (hgood : ¬ HasBadFormat content_list) (i : Nat)
    (hi : i < content_list.numHwLayers) :
    ∃ stack1 layer_buffer stack_flags,
      stack1.layers.length = d.layer_stack_.layers.length ∧
      (PrepareLayerStack.engineInput d content_list).layer i =
        (PrepareLayerStack.configureLayer d.layer_stack_cache_ i (content_list.hwLayer i)
          stack1 layer_buffer stack_flags).layer i := by
  have hall := GoodFormat_of_not_HasBadFormat content_list hgood
  have hg : ∀ m, m ≤ i - 0 →
      GoodFormat (content_list.hwLayers.getD m hwc_layer_1_t.zero) := by
    intro m hm
    exact hall _ (hwLayer_mem content_list m (by omega))
  obtain ⟨s1, b1, f1, hl, e⟩ := PrepareLayerStack.configure_layer_at d.layer_stack_cache_
    content_list.hwLayers 0 i d.layer_stack_ (Nat.zero_le i)
    (by unfold hwc_display_contents_1_t.numHwLayers at hi; omega) hg
  exact ⟨s1, b1, f1, hl, e⟩

/-- On a frame of two or more layers without a bad format, the stack that
`PrepareLayerStack` leaves in the display is the one the engine returned for
the stack handed to it. -/
theorem PrepareLayerStack_engine_stack (display_intf_ : DisplayInterface) (d : HWCDisplay)
    (content_list : hwc_display_contents_1_t) (h2 : 2 ≤ content_list.numHwLayers)
    (hgood : ¬ HasBadFormat content_list) :
    (PrepareLayerStack display_intf_ d content_list).display.layer_stack_ =
      (display_intf_.Prepare (PrepareLayerStack.engineInput d content_list)).2 := by
  have hc : (PrepareLayerStack.configure d.layer_stack_cache_ content_list.hwLayers 0
      d.layer_stack_).1 = 0 := by
    by_contra hc
    exact hgood ((PrepareLayerStack.configure_status_ne_zero_iff d content_list).1 hc)
  by_cases he : (display_intf_.Prepare (PrepareLayerStack.engineInput d content_list)).1 =
      kErrorNone
  · rw [PrepareLayerStack_of_success display_intf_ d content_list h2 hc he]
    rfl
  · rw [PrepareLayerStack_of_engine_error display_intf_ d content_list h2 hc he]

/-! ## The updating flag -/

/-- C12: on a frame of two or more layers whose formats are all recognised, the
stack that `PrepareLayerStack` hands to the engine's prepare pass has, on every
layer `i` of the frame, the updating flag set exactly when the handle of
external layer `i` differs from the handle held in cache slot `i` before the
call. -/
theorem PrepareLayerStack_updating_flag (display_intf_ : DisplayInterface) (d : HWCDisplay)
    (content_list : hwc_display_contents_1_t) (h2 : 2 ≤ content_list.numHwLayers)
    (hgood : ¬ HasBadFormat content_list) (i : Nat) (hi : i < content_list.numHwLayers)
    (hlen : i < d.layer_stack_.layers.length) :
    (PrepareLayerStack display_intf_ d content_list).display.layer_stack_ =
        (display_intf_.Prepare (PrepareLayerStack.engineInput d content_list)).2 ∧
      (((PrepareLayerStack.engineInput d content_list).layer i).flags.updating = true ↔
        (content_list.hwLayer i).handle ≠ (d.layer_stack_cache_.layer_cache i).handle) := by
  refine ⟨PrepareLayerStack_engine_stack display_intf_ d content_list h2 hgood, ?_⟩
  obtain ⟨s1, b1, f1, hl, e⟩ := PrepareLayerStack.engineInput_layer d content_list hgood i hi
  rw [e, PrepareLayerStack.configureLayer_flags _ _ _ _ _ _ (by omega)]
  simp only [decide_eq_true_eq]
  exact ⟨fun h => Ne.symm h, fun h => Ne.symm h⟩

/-- C12 at a concrete frame: `frame2` on a fresh cache, whose slots hold the
null handle, layer 0 with handle 11. -/
theorem PrepareLayerStack_updating_flag_witness :
    (2 ≤ frame2.numHwLayers ∧ 0 < allocated2.layer_stack_.layers.length) ∧
      (((PrepareLayerStack.engineInput allocated2 frame2).layer 0).flags.updating = true ↔
        (frame2.hwLayer 0).handle ≠ (allocated2.layer_stack_cache_.layer_cache 0).handle) :=
  ⟨⟨by decide, by decide⟩,
    (PrepareLayerStack_updating_flag engineOk allocated2 frame2 (by decide)
      (by decide) 0 (by decide) (by decide)).2⟩

/-! ## The skip bit -/

/-- C13: on a frame of two or more layers with recognised formats in which some
external layer has the skip bit, and whose engine prepare pass succeeds and
leaves the stack flags as they are, `PrepareLayerStack` hands the engine a stack
with `skip_present` set, succeeds, and takes the redraw decision true, whatever
the cache, the handles, the geometry flag and the engine's decisions; every
layer the engine marked GPU-composed is written back as `HWC_FRAMEBUFFER`. -/
theorem PrepareLayerStack_skip_forces_redraw (display_intf_ : DisplayInterface)
    (d : HWCDisplay) (content_list : hwc_display_contents_1_t)
    (h2 : 2 ≤ content_list.numHwLayers) (hgood : ¬ HasBadFormat content_list)
    (hskip : ∃ hwc_layer ∈ content_list.hwLayers, (hwc_layer.flags &&& HWC_SKIP_LAYER) > 0)
    (he : (display_intf_.Prepare (PrepareLayerStack.engineInput d content_list)).1 = kErrorNone)
    (hflags : (display_intf_.Prepare (PrepareLayerStack.engineInput d content_list)).2.flags =
      (PrepareLayerStack.engineInput d content_list).flags) :
    (PrepareLayerStack.engineInput d content_list).flags.skip_present = true ∧
      (PrepareLayerStack display_intf_ d content_list).status = 0 ∧
      NeedsFrameBufferRefresh
        { d with
          layer_stack_ :=
            (display_intf_.Prepare (PrepareLayerStack.engineInput d content_list)).2 }
        content_list = true ∧
      ∀ i, i < content_list.numHwLayers →
        ((display_intf_.Prepare (PrepareLayerStack.engineInput d content_list)).2.layer
          i).composition = kCompositionGPU →
        ((PrepareLayerStack display_intf_ d content_list).content_list.hwLayer
          i).compositionType = HWC_FRAMEBUFFER := by
  have hall := GoodFormat_of_not_HasBadFormat content_list hgood
  have hc : (PrepareLayerStack.configure d.layer_stack_cache_ content_list.hwLayers 0
      d.layer_stack_).1 = 0 := by
    by_contra hc
    exact hgood ((PrepareLayerStack.configure_status_ne_zero_iff d content_list).1 hc)
  have hsp : (PrepareLayerStack.engineInput d content_list).flags.skip_present = true := by
    show (PrepareLayerStack.configure d.layer_stack_cache_ content_list.hwLayers 0
      d.layer_stack_).2.flags.skip_present = true
    rw [PrepareLayerStack.configure_skip_present _ _ _ _ hall]
    obtain ⟨l, hl, hs⟩ := hskip
    have hany : content_list.hwLayers.any
        (fun hwc_layer => decide ((hwc_layer.flags &&& HWC_SKIP_LAYER) > 0)) = true :=
      List.any_eq_true.2 ⟨l, hl, decide_eq_true hs⟩
    rw [hany]
    rfl
  have hneeds : NeedsFrameBufferRefresh
      { d with
        layer_stack_ :=
          (display_intf_.Prepare (PrepareLayerStack.engineInput d content_list)).2 }
      content_list = true := by
    rw [NeedsFrameBufferRefresh_eq_true_iff]
    refine Or.inl (Or.inr (Or.inl ?_))
    show (display_intf_.Prepare
      (PrepareLayerStack.engineInput d content_list)).2.flags.skip_present = true
    rw [hflags]
    exact hsp
  have hout := PrepareLayerStack_of_success display_intf_ d content_list h2 hc he
  refine ⟨hsp, ?_, hneeds, ?_⟩
  · rw [hout]
  · intro i hi hg
    rw [hout]
    simp only [hwc_display_contents_1_t.hwLayer]
    rw [PrepareLayerStack.writeBack_getD _ _ _ _ _ hi]
    simp only [Nat.zero_add]
    rw [hneeds, hg]
    rfl

/-- C13 at a concrete frame: `frameSkip`, whose first layer has the skip bit,
with an engine that marks layer 0 GPU-composed. -/
theorem PrepareLayerStack_skip_forces_redraw_witness :
    (2 ≤ frameSkip.numHwLayers ∧ ¬ HasBadFormat frameSkip ∧
      (∃ hwc_layer ∈ frameSkip.hwLayers, (hwc_layer.flags &&& HWC_SKIP_LAYER) > 0)) ∧
    ((PrepareLayerStack.engineInput allocated2 frameSkip).flags.skip_present = true ∧
      (PrepareLayerStack engineGPU allocated2 frameSkip).status = 0 ∧
      NeedsFrameBufferRefresh
        { allocated2 with
          layer_stack_ :=
            (engineGPU.Prepare (PrepareLayerStack.engineInput allocated2 frameSkip)).2 }
        frameSkip = true ∧
      ((PrepareLayerStack engineGPU allocated2 frameSkip).content_list.hwLayer
        0).compositionType = HWC_FRAMEBUFFER) :=
  have h := PrepareLayerStack_skip_forces_redraw engineGPU allocated2 frameSkip (by decide)
    (by decide) (by decide) (by decide) (by decide)
  ⟨⟨by decide, by decide, by decide⟩, h.1, h.2.1, h.2.2.1, h.2.2.2 0 (by decide) (by decide)⟩

/-! ## The transform -/

/-- A bitmask has a non-zero conjunction with a power of two exactly when it has
that bit. -/
theorem and_two_pow_ne_zero_iff (x n : Nat) : x &&& 2 ^ n ≠ 0 ↔ x.testBit n = true := by
  constructor
  · intro h
    obtain ⟨i, hi⟩ := Nat.ne_zero_implies_bit_true h
    rw [Nat.testBit_and, Nat.testBit_two_pow] at hi
    simp only [Bool.and_eq_true, decide_eq_true_eq] at hi
    obtain ⟨h1, h2⟩ := hi
    subst h2
    exact h1
  · intro h hz
    have hb : (x &&& 2 ^ n).testBit n = true := by
      rw [Nat.testBit_and, Nat.testBit_two_pow_self, h]
      rfl
    rw [hz, Nat.zero_testBit] at hb
    cases hb

/-- The transform that the source computes from a bitmask, in terms of the bits
0, 1 and 2 of the bitmask. -/
theorem transform_of_bits (t : Nat) :
    ({ flip_horizontal := decide ((t &&& HWC_TRANSFORM_FLIP_H) > 0),
       flip_vertical := decide ((t &&& HWC_TRANSFORM_FLIP_V) > 0),
       rotation := if (t &&& HWC_TRANSFORM_ROT_90) ≠ 0 then 90 else 0 } : LayerTransform) =
      { flip_horizontal := t.testBit 0, flip_vertical := t.testBit 1,
        rotation := if t.testBit 2 = true then 90 else 0 } := by
  have h0 := and_two_pow_ne_zero_iff t 0
  have h1 := and_two_pow_ne_zero_iff t 1
  have h2 := and_two_pow_ne_zero_iff t 2
  have e0 : decide ((t &&& HWC_TRANSFORM_FLIP_H) > 0) = t.testBit 0 := by
    rw [Bool.eq_iff_iff, decide_eq_true_eq, ← h0]
    exact Nat.pos_iff_ne_zero
  have e1 : decide ((t &&& HWC_TRANSFORM_FLIP_V) > 0) = t.testBit 1 := by
    rw [Bool.eq_iff_iff, decide_eq_true_eq, ← h1]
    exact Nat.pos_iff_ne_zero
  have e2 : ((t &&& HWC_TRANSFORM_ROT_90) ≠ 0) ↔ t.testBit 2 = true := by
    rw [← h2]
    rfl
  rw [e0, e1]
  by_cases hb : t.testBit 2 = true
  · rw [if_pos hb, if_pos (e2.2 hb)]
  · rw [if_neg hb, if_neg (fun h => hb (e2.1 h))]

/-- C17: on a frame with recognised formats, the transform of layer `i` in the
stack handed to the engine has `flip_horizontal` equal to bit 0 of the external
transform bitmask (the horizontal-flip bit), `flip_vertical` equal to bit 1 (the
vertical-flip bit), and rotation 90 when bit 2 (the 90 degree bit) is set and 0
otherwise; the rotation is 0 or 90; and two frames whose bitmasks agree on
those three bits give the same transform. -/
theorem PrepareLayerStack_transform (d : HWCDisplay) (content_list : hwc_display_contents_1_t)
    (hgood : ¬ HasBadFormat content_list) (i : Nat) (hi : i < content_list.numHwLayers)
    (hlen : i < d.layer_stack_.layers.length) :
    ((PrepareLayerStack.engineInput d content_list).layer i).transform =
        { flip_horizontal := (content_list.hwLayer i).transform.testBit 0,
          flip_vertical := (content_list.hwLayer i).transform.testBit 1,
          rotation := if (content_list.hwLayer i).transform.testBit 2 = true then 90 else 0 } ∧
      (((PrepareLayerStack.engineInput d content_list).layer i).transform.rotation = 0 ∨
        ((PrepareLayerStack.engineInput d content_list).layer i).transform.rotation = 90) ∧
      ∀ (d2 : HWCDisplay) (content2 : hwc_display_contents_1_t),
        ¬ HasBadFormat content2 → i < content2.numHwLayers →
        i < d2.layer_stack_.layers.length →
        (content2.hwLayer i).transform.testBit 0 = (content_list.hwLayer i).transform.testBit 0 →
        (content2.hwLayer i).transform.testBit 1 = (content_list.hwLayer i).transform.testBit 1 →
        (content2.hwLayer i).transform.testBit 2 = (content_list.hwLayer i).transform.testBit 2 →
        ((PrepareLayerStack.engineInput d2 content2).layer i).transform =
          ((PrepareLayerStack.engineInput d content_list).layer i).transform := by
  have key : ∀ (d1 : HWCDisplay) (c1 : hwc_display_contents_1_t), ¬ HasBadFormat c1 →
      i < c1.numHwLayers → i < d1.layer_stack_.layers.length →
      ((PrepareLayerStack.engineInput d1 c1).layer i).transform =
        { flip_horizontal := (c1.hwLayer i).transform.testBit 0,
          flip_vertical := (c1.hwLayer i).transform.testBit 1,
          rotation := if (c1.hwLayer i).transform.testBit 2 = true then 90 else 0 } := by
    intro d1 c1 hg1 hi1 hl1
    obtain ⟨s1, b1, f1, hl, e⟩ := PrepareLayerStack.engineInput_layer d1 c1 hg1 i hi1
    rw [e, PrepareLayerStack.configureLayer_transform _ _ _ _ _ _ (by omega)]
    exact transform_of_bits _
  refine ⟨key d content_list hgood hi hlen, ?_, ?_⟩
  · rw [key d content_list hgood hi hlen]
    by_cases hb : (content_list.hwLayer i).transform.testBit 2 = true
    · exact Or.inr (if_pos hb)
    · exact Or.inl (if_neg hb)
  · intro d2 content2 hg2 hi2 hl2 e0 e1 e2
    rw [key d content_list hgood hi hlen, key d2 content2 hg2 hi2 hl2, e0, e1, e2]

/-- C17 at a concrete frame: `frameRotated`, whose first layer has bitmask 5
(horizontal flip and 90 degrees). -/
theorem PrepareLayerStack_transform_witness :
    (¬ HasBadFormat frameRotated ∧ 0 < frameRotated.numHwLayers ∧
      0 < allocated2.layer_stack_.layers.length) ∧
    ((PrepareLayerStack.engineInput allocated2 frameRotated).layer 0).transform =
      { flip_horizontal := (frameRotated.hwLayer 0).transform.testBit 0,
        flip_vertical := (frameRotated.hwLayer 0).transform.testBit 1,
        rotation := if (frameRotated.hwLayer 0).transform.testBit 2 = true then 90 else 0 } :=
  ⟨⟨by decide, by decide, by decide⟩,
    (PrepareLayerStack_transform allocated2 frameRotated (by decide) 0 (by decide)
      (by decide)).1⟩

/-! ## What an error leaves behind -/

/-- The configuration loop succeeds on a list of layers with good formats. -/
theorem PrepareLayerStack.configure_status_of_good (layer_stack_cache_ : LayerStackCache)
    (l : List hwc_layer_1_t) (i : Nat) (layer_stack_ : LayerStack)
    (hgood : ∀ hwc_layer ∈ l, GoodFormat hwc_layer) :
    (PrepareLayerStack.configure layer_stack_cache_ l i layer_stack_).1 = 0 :=
  (PrepareLayerStack.configure_status_eq_zero_iff _ _ _ _).2 hgood

/-- The configuration loop on layers with good formats followed by a layer with
a bad one: `-EINVAL`, and the stack as the good layers left it. -/
theorem PrepareLayerStack.configure_stops (layer_stack_cache_ : LayerStackCache)
    (pre : List hwc_layer_1_t) (bad : hwc_layer_1_t) (post : List hwc_layer_1_t) (i : Nat)
    (layer_stack_ : LayerStack) (hpre : ∀ hwc_layer ∈ pre, GoodFormat hwc_layer)
    (h1 : bad.handle ≠ 0) (hbad : ¬ RecognisedFormat bad.pvt_handle.format) :
    PrepareLayerStack.configure layer_stack_cache_ (pre ++ bad :: post) i layer_stack_ =
      (-EINVAL, (PrepareLayerStack.configure layer_stack_cache_ pre i layer_stack_).2) := by
  have h0 := PrepareLayerStack.configure_status_of_good layer_stack_cache_ pre i layer_stack_
    hpre
  rw [PrepareLayerStack.configure_append, if_neg (not_not.2 h0),
    PrepareLayerStack.configure_cons_bad _ _ _ _ _ h1 hbad]

/-- C11: whenever `PrepareLayerStack` returns an error, the composition cache and
the external list are as they were before the call (no composition type has
been written).  When the error is a format failure at layer `k`, the layer of
the frame after `k` layers with good formats, the status is `-EINVAL`, the
stack is the one that translating the layers below `k` left, and each layer
below `k` holds the value it had right after it was translated. -/
theorem PrepareLayerStack_error_effects (display_intf_ : DisplayInterface) (d : HWCDisplay)
    (content_list : hwc_display_contents_1_t) :
    ((PrepareLayerStack display_intf_ d content_list).status ≠ 0 →
      (PrepareLayerStack display_intf_ d content_list).display.layer_stack_cache_ =
          d.layer_stack_cache_ ∧
        (PrepareLayerStack display_intf_ d content_list).content_list = content_list) ∧
    ∀ (pre : List hwc_layer_1_t) (bad : hwc_layer_1_t) (post : List hwc_layer_1_t),
      content_list.hwLayers = pre ++ bad :: post → 2 ≤ content_list.numHwLayers →
      (∀ hwc_layer ∈ pre, GoodFormat hwc_layer) → bad.handle ≠ 0 →
      ¬ RecognisedFormat bad.pvt_handle.format →
      (PrepareLayerStack display_intf_ d content_list).status = -EINVAL ∧
        (PrepareLayerStack display_intf_ d content_list).display.layer_stack_ =
          (PrepareLayerStack.configure d.layer_stack_cache_ pre 0 d.layer_stack_).2 ∧
        ∀ (p1 : List hwc_layer_1_t) (x : hwc_layer_1_t) (p2 : List hwc_layer_1_t),
          pre = p1 ++ x :: p2 →
          (PrepareLayerStack display_intf_ d content_list).display.layer_stack_.layer
              p1.length =
            (PrepareLayerStack.configure d.layer_stack_cache_ (p1 ++ [x]) 0
              d.layer_stack_).2.layer p1.length := by
  constructor
  · intro hs
    by_cases h1 : content_list.numHwLayers ≤ 1
    · exfalso
      apply hs
      unfold PrepareLayerStack
      simp only []
      rw [if_pos h1]
    · have h2 : 2 ≤ content_list.numHwLayers := by omega
      by_cases hc : (PrepareLayerStack.configure d.layer_stack_cache_ content_list.hwLayers 0
          d.layer_stack_).1 = 0
      · by_cases he : (display_intf_.Prepare
            (PrepareLayerStack.engineInput d content_list)).1 = kErrorNone
        · exfalso
          apply hs
          rw [PrepareLayerStack_of_success display_intf_ d content_list h2 hc he]
        · rw [PrepareLayerStack_of_engine_error display_intf_ d content_list h2 hc he]
          exact ⟨rfl, rfl⟩
      · rw [PrepareLayerStack_of_configure_error display_intf_ d content_list h2 hc]
        exact ⟨rfl, rfl⟩
  · intro pre bad post hsplit h2 hpre h1 hbad
    have hstop := PrepareLayerStack.configure_stops d.layer_stack_cache_ pre bad post 0
      d.layer_stack_ hpre h1 hbad
    rw [← hsplit] at hstop
    have hc : (PrepareLayerStack.configure d.layer_stack_cache_ content_list.hwLayers 0
        d.layer_stack_).1 ≠ 0 := by
      rw [hstop]
      simp [EINVAL]
    rw [PrepareLayerStack_of_configure_error display_intf_ d content_list h2 hc, hstop]
    refine ⟨rfl, rfl, ?_⟩
    intro p1 x p2 hp
    show (PrepareLayerStack.configure d.layer_stack_cache_ pre 0 d.layer_stack_).2.layer
      p1.length = _
    have hgood1 : ∀ hwc_layer ∈ p1 ++ [x], GoodFormat hwc_layer := by
      intro l hl
      apply hpre
      rw [hp]
      simp only [List.mem_append, List.mem_singleton] at hl
      simp only [List.mem_append, List.mem_cons]
      rcases hl with hl | hl
      · exact Or.inl hl
      · exact Or.inr (Or.inl hl)
    have h0 := PrepareLayerStack.configure_status_of_good d.layer_stack_cache_ (p1 ++ [x]) 0
      d.layer_stack_ hgood1
    have hp2 : pre = (p1 ++ [x]) ++ p2 := by rw [hp]; simp
    rw [hp2, PrepareLayerStack.configure_append, if_neg (not_not.2 h0),
      PrepareLayerStack.configure_layer_lt _ _ _ _ _ (by simp)]

/-- C11 at a concrete frame: `frameBadSecond`, whose layer 1 has format 77, on
the stack allocated for it; layer 0 keeps its translation. -/
theorem PrepareLayerStack_error_effects_witness :
    (PrepareLayerStack engineOk allocatedBadSecond frameBadSecond).status ≠ 0 ∧
      ((PrepareLayerStack engineOk allocatedBadSecond frameBadSecond).display.layer_stack_cache_ =
          allocatedBadSecond.layer_stack_cache_ ∧
        (PrepareLayerStack engineOk allocatedBadSecond frameBadSecond).content_list =
          frameBadSecond) ∧
      ((PrepareLayerStack engineOk allocatedBadSecond frameBadSecond).status = -EINVAL ∧
        (PrepareLayerStack engineOk allocatedBadSecond frameBadSecond).display.layer_stack_.layer
            0 =
          (PrepareLayerStack.configure allocatedBadSecond.layer_stack_cache_
            [frameBadSecond.hwLayer 0] 0 allocatedBadSecond.layer_stack_).2.layer 0) :=
  have h := (PrepareLayerStack_error_effects engineOk allocatedBadSecond frameBadSecond).2
    [frameBadSecond.hwLayer 0] (frameBadSecond.hwLayer 1) [frameBadSecond.hwLayer 2]
    (by decide) (by decide) (by decide) (by decide) (by decide)
  ⟨by decide,
    (PrepareLayerStack_error_effects engineOk allocatedBadSecond frameBadSecond).1 (by decide),
    h.1, h.2.2 [] (frameBadSecond.hwLayer 0) [] rfl⟩

/-! ## The layout of the arena -/

/-- Regions that follow one another without a gap lie between the two ends, and
each one ends before any later one begins. -/
theorem Contiguous.bounds (regions : List Region) (start stop : Nat)
    (h : Contiguous start regions stop) :
    start ≤ stop ∧
      (∀ region ∈ regions, start ≤ region.addr ∧ region.addr + region.bytes ≤ stop) ∧
      regions.Pairwise (fun a b => a.addr + a.bytes ≤ b.addr) := by
  induction regions generalizing start with
  | nil =>
      have e : start = stop := h
      exact ⟨by omega, fun _ hr => absurd hr (List.not_mem_nil _), List.Pairwise.nil⟩
  | cons a t ih =>
      obtain ⟨ha, ht⟩ : a.addr = start ∧ Contiguous (start + a.bytes) t stop := h
      obtain ⟨h1, h2, h3⟩ := ih (start + a.bytes) ht
      refine ⟨by omega, ?_, ?_⟩
      · intro region hr
        rcases List.mem_cons.1 hr with rfl | hr
        · exact ⟨by omega, by omega⟩
        · have := h2 region hr
          exact ⟨by omega, this.2⟩
      · refine List.Pairwise.cons ?_ h3
        intro b hb
        have := (h2 b hb).1
        omega

/-- Two gapless runs of regions, the second beginning where the first ends,
make one gapless run. -/
theorem Contiguous.append (l1 l2 : List Region) (a b c : Nat) (h1 : Contiguous a l1 b)
    (h2 : Contiguous b l2 c) : Contiguous a (l1 ++ l2) c := by
  induction l1 generalizing a with
  | nil =>
      have e : a = b := h1
      rw [e]
      exact h2
  | cons x t ih =>
      obtain ⟨hx, ht⟩ : x.addr = a ∧ Contiguous (a + x.bytes) t b := h1
      exact ⟨hx, ih _ ht⟩

/-- The regions of the carved layers follow one another without a gap from the
address the carving starts at, each layer taking a buffer descriptor and its
visible rectangles plus one. -/
theorem AllocateLayerStack.carve_contiguous (env : Env) (stale : Nat → LayerRect)
    (l : List hwc_layer_1_t) (current_address : Nat) :
    Contiguous current_address (layerRegions env (AllocateLayerStack.carve env stale l
        current_address))
      (current_address + (l.map fun hwc_layer =>
        env.sizeof_LayerBuffer +
          (hwc_layer.visibleRegionScreen.length + 1) * env.sizeof_LayerRect).sum) := by
  induction l generalizing current_address with
  | nil =>
      show current_address = current_address + 0
      omega
  | cons a t ih =>
      have hnext := ih (current_address + env.sizeof_LayerBuffer +
        a.visibleRegionScreen.length * env.sizeof_LayerRect + env.sizeof_LayerRect)
      have e : current_address + env.sizeof_LayerBuffer +
          a.visibleRegionScreen.length * env.sizeof_LayerRect + env.sizeof_LayerRect +
            (t.map fun hwc_layer => env.sizeof_LayerBuffer +
              (hwc_layer.visibleRegionScreen.length + 1) * env.sizeof_LayerRect).sum =
          current_address + ((a :: t).map fun hwc_layer => env.sizeof_LayerBuffer +
            (hwc_layer.visibleRegionScreen.length + 1) * env.sizeof_LayerRect).sum := by
        simp only [List.map_cons, List.sum_cons, Nat.add_mul, Nat.one_mul]
        omega
      rw [e] at hnext
      refine ⟨rfl, rfl, rfl, ?_⟩
      show Contiguous (current_address + env.sizeof_LayerBuffer +
        a.visibleRegionScreen.length * env.sizeof_LayerRect + 1 * env.sizeof_LayerRect) _ _
      rw [Nat.one_mul]
      exact hnext

/-- The sizes of the regions of the carved layers: per layer a buffer descriptor,
`numRects` rectangles and one rectangle. -/
theorem AllocateLayerStack.carve_sizes (env : Env) (stale : Nat → LayerRect)
    (l : List hwc_layer_1_t) (current_address : Nat) :
    (layerRegions env (AllocateLayerStack.carve env stale l current_address)).map
      Region.bytes = layerSizes env l := by
  induction l generalizing current_address with
  | nil => rfl
  | cons a t ih =>
      simp only [AllocateLayerStack.carve, layerRegions, Layer.regions, layerSizes,
        List.map_append, List.map_cons, List.map_nil, ih, Nat.one_mul]

/-- The carving loop makes one layer per external layer. -/
theorem AllocateLayerStack.carve_length (env : Env) (stale : Nat → LayerRect)
    (l : List hwc_layer_1_t) (current_address : Nat) :
    (AllocateLayerStack.carve env stale l current_address).length = l.length := by
  induction l generalizing current_address with
  | nil => rfl
  | cons a t ih => simp only [AllocateLayerStack.carve, List.length_cons, ih]

/-- The layer array together with what the carving loop takes is the byte
requirement of the frame. -/
theorem requirement_eq_spans (env : Env) (content_list : hwc_display_contents_1_t) :
    content_list.numHwLayers * env.sizeof_Layer +
        (content_list.hwLayers.map fun hwc_layer =>
          env.sizeof_LayerBuffer +
            (hwc_layer.visibleRegionScreen.length + 1) * env.sizeof_LayerRect).sum =
      requirement env content_list := by
  unfold requirement hwc_display_contents_1_t.numHwLayers
  generalize content_list.hwLayers = l
  induction l with
  | nil => simp
  | cons a t ih =>
      simp only [List.length_cons, List.map_cons, List.sum_cons, Nat.add_mul, Nat.mul_add,
        Nat.one_mul] at ih ⊢
      omega

/-- C21: after a successful `AllocateLayerStack` the regions of the stack are,
in this order, the layer array of `N * sizeof(Layer)` bytes and then for each
layer its buffer descriptor, its `numRects` visible rectangles and its one
dirty rectangle; they follow one another without a gap from the first byte of
the arena to the frame's exact byte requirement; each ends before any later
one begins, so they are pairwise disjoint; and, the allocation step being
positive, every region lies within the arena's capacity. -/
theorem AllocateLayerStack_layout (env : Env) (new_array : Nat → Nat)
    (stale : Nat → LayerRect) (d : HWCDisplay) (content_list : hwc_display_contents_1_t)
    (hs : (AllocateLayerStack env new_array stale d content_list).1 = 0) :
    ((AllocateLayerStack env new_array stale d content_list).2.layer_stack_.layers.length =
        content_list.numHwLayers) ∧
      (((AllocateLayerStack env new_array stale d content_list).2.layer_stack_.regions env).map
          Region.bytes =
        content_list.numHwLayers * env.sizeof_Layer :: layerSizes env content_list.hwLayers) ∧
      Contiguous
        (AllocateLayerStack env new_array stale d content_list).2.layer_stack_memory_.raw
        ((AllocateLayerStack env new_array stale d content_list).2.layer_stack_.regions env)
        ((AllocateLayerStack env new_array stale d content_list).2.layer_stack_memory_.raw +
          requirement env content_list) ∧
      ((AllocateLayerStack env new_array stale d content_list).2.layer_stack_.regions
        env).Pairwise (fun a b => a.addr + a.bytes ≤ b.addr) ∧
      (0 < env.kSizeSteps →
        ∀ region ∈
          (AllocateLayerStack env new_array stale d content_list).2.layer_stack_.regions env,
          (AllocateLayerStack env new_array stale d content_list).2.layer_stack_memory_.raw ≤
              region.addr ∧
            region.addr + region.bytes ≤
              (AllocateLayerStack env new_array stale d content_list).2.layer_stack_memory_.raw +
                (AllocateLayerStack env new_array stale d
                  content_list).2.layer_stack_memory_.size) := by
  have hstack := AllocateLayerStack_stack env new_array stale d content_list hs
  have hcont : Contiguous
      (AllocateLayerStack env new_array stale d content_list).2.layer_stack_memory_.raw
      ((AllocateLayerStack env new_array stale d content_list).2.layer_stack_.regions env)
      ((AllocateLayerStack env new_array stale d content_list).2.layer_stack_memory_.raw +
        requirement env content_list) := by
    rw [hstack]
    refine ⟨rfl, ?_⟩
    have h := AllocateLayerStack.carve_contiguous env stale content_list.hwLayers
      ((AllocateLayerStack env new_array stale d content_list).2.layer_stack_memory_.raw +
        content_list.numHwLayers * env.sizeof_Layer)
    rw [Nat.add_assoc, requirement_eq_spans] at h
    exact h
  obtain ⟨_, hin, hpair⟩ := Contiguous.bounds _ _ _ hcont
  refine ⟨?_, ?_, hcont, hpair, ?_⟩
  · rw [hstack]
    exact AllocateLayerStack.carve_length _ _ _ _
  · rw [hstack]
    show _ :: (layerRegions env _).map Region.bytes = _
    rw [AllocateLayerStack.carve_sizes]
  · intro hstep region hr
    have hcap := (AllocateLayerStack_step_capacity env hstep new_array stale d content_list
      hs).1
    have := hin region hr
    exact ⟨this.1, by omega⟩

/-- C21 at a concrete frame: `frame2` on a fresh display; the arena starts at
4096, the requirement is 384 bytes and the capacity 1024. -/
theorem AllocateLayerStack_layout_witness :
    (AllocateLayerStack env0 (fun _ => 4096) (fun _ => sentinel) HWCDisplay.init frame2).1 =
        0 ∧
      Contiguous 4096
        ((AllocateLayerStack env0 (fun _ => 4096) (fun _ => sentinel) HWCDisplay.init
          frame2).2.layer_stack_.regions env0)
        (4096 + requirement env0 frame2) ∧
      ((AllocateLayerStack env0 (fun _ => 4096) (fun _ => sentinel) HWCDisplay.init
        frame2).2.layer_stack_.regions env0).Pairwise (fun a b => a.addr + a.bytes ≤ b.addr) ∧
      0 < env0.kSizeSteps ∧
      ∀ region ∈
        (AllocateLayerStack env0 (fun _ => 4096) (fun _ => sentinel) HWCDisplay.init
          frame2).2.layer_stack_.regions env0,
        4096 ≤ region.addr ∧ region.addr + region.bytes ≤ 4096 + 1024 :=
  have h := AllocateLayerStack_layout env0 (fun _ => 4096) (fun _ => sentinel)
    HWCDisplay.init frame2 (by decide)
  ⟨by decide, h.2.2.1, h.2.2.2.1, by decide, h.2.2.2.2 (by decide)⟩

end sde
